import Mathlib

/-!
Verification development for the strada-toolbox core: a shallow embedding of
`strada/core/classify.py`, `strada/core/verify.py` and the constants of
`strada/config/constants.py`, together with theorems checking the
natural-language specification against it.

Conventions of the embedding:
* pandas cell values that may be `NaN` are `Option` values (`none` = `NaN`);
* free text is processed as `List Char`; Python `str.lower` and the regex
  classes `\w`, `\s`, `\b` are modelled for the ASCII and Latin-1 range,
  which covers the Swedish datasets (å, ä, ö) the program targets;
* a DataFrame is a list of records in row order; the positional index of a
  row stands for its pandas index (the tables are loaded with a default
  RangeIndex);
* pandas `unique()` / `drop_duplicates` is `List.pdUnique` (first
  occurrence kept), `sorted(...)`/sorted groupby keys are `List.mergeSort`,
  and Python's stable `list.sort(key=..., reverse=True)` is a stable
  `mergeSort` with the reversed comparison.
-/

/-- Order-preserving de-duplication keeping first occurrences (pandas
`unique()` / `drop_duplicates`, Python `dict.fromkeys`), with an
accumulator of already-seen elements. -/
def pdUniqueAux {α : Type} [DecidableEq α] (seen : List α) : List α → List α
  | [] => []
  | a :: t => if a ∈ seen then pdUniqueAux seen t else a :: pdUniqueAux (a :: seen) t

/-- Order-preserving de-duplication keeping first occurrences. -/
def List.pdUnique {α : Type} [DecidableEq α] (l : List α) : List α :=
  pdUniqueAux [] l

namespace Strada

/-! ### Python text primitives (`str.lower`, `str.strip`, `in`, `re`) -/

/-- Python `str.lower` on one character, for the ASCII and Latin-1 range
(`A`-`Z` and `À`-`Þ` except `×` map down by 32; everything else is kept). -/
def pyLowerChar (c : Char) : Char :=
  if 65 ≤ c.toNat ∧ c.toNat ≤ 90 then Char.ofNat (c.toNat + 32)
  else if 192 ≤ c.toNat ∧ c.toNat ≤ 222 ∧ c.toNat ≠ 215 then Char.ofNat (c.toNat + 32)
  else c

/-- Python `str.lower` on a string (as a char list). -/
def pyLower (s : List Char) : List Char := s.map pyLowerChar

/-- Python `str.lower` on a `String`. -/
def pyLowerStr (s : String) : String := String.mk (pyLower s.data)

/-- The whitespace class of Python's `str.strip` and of the regex `\s`
(space, tab, newline, carriage return, vertical tab, form feed). -/
def isPySpace (c : Char) : Bool :=
  c == ' ' || c == '\t' || c == '\n' || c == '\r' ||
    c == Char.ofNat 11 || c == Char.ofNat 12

/-- Python `str.strip()`: drop whitespace at both ends. -/
def pyStrip (s : List Char) : List Char :=
  ((s.dropWhile isPySpace).reverse.dropWhile isPySpace).reverse

/-- `str.strip()` on a `String`. -/
def stripStr (s : String) : String := String.mk (pyStrip s.data)

/-- Python substring containment `needle in hay`. -/
def containsSub (needle : List Char) : List Char → Bool
  | [] => needle.isEmpty
  | c :: t => needle.isPrefixOf (c :: t) || containsSub needle t

/-- The word-character class of the regex `\w` (ASCII alphanumerics,
underscore, and the Latin-1 letters `À`-`ÿ` except `×` and `÷`). -/
def isWordChar (c : Char) : Bool :=
  c.isAlphanum || c == '_' ||
    (192 ≤ c.toNat && c.toNat ≤ 255 && c.toNat != 215 && c.toNat != 247)

/-- Word-character test on an optional character; the edge of the string
counts as a non-word character. -/
def isWordOpt : Option Char → Bool
  | none => false
  | some c => isWordChar c

/-- The regex `\b` holds between two (optional) characters when exactly one
side is a word character. -/
def atBoundary (a b : Option Char) : Bool := isWordOpt a != isWordOpt b

/-- Does `\b kw \b` match at the start of `hay`, where `prev` is the
character just before `hay` (or `none` at the start of the text)? -/
def wbMatchHere (prev : Option Char) (kw hay : List Char) : Bool :=
  kw.isPrefixOf hay && atBoundary prev kw.head? &&
    atBoundary kw.getLast? (hay.drop kw.length).head?

/-- `re.search(r"\b" + re.escape(kw) + r"\b", text)` as a Boolean: try the
match at every position of `hay`, threading the previous character. -/
def wbSearch (kw : List Char) : Option Char → List Char → Bool
  | prev, [] => wbMatchHere prev kw []
  | prev, c :: t => wbMatchHere prev kw (c :: t) || wbSearch kw (some c) t

/-- Python `s.replace(pat, repl)` (left-to-right, non-overlapping), with
explicit fuel; each step consumes at least one character of the input. -/
def replaceAllAux (pat repl : List Char) : Nat → List Char → List Char
  | 0, s => s
  | _ + 1, [] => []
  | fuel + 1, c :: t =>
    if pat ≠ [] ∧ pat.isPrefixOf (c :: t) then
      repl ++ replaceAllAux pat repl fuel ((c :: t).drop pat.length)
    else
      c :: replaceAllAux pat repl fuel t

/-- Python `s.replace(pat, repl)`. -/
def replaceAll (pat repl s : List Char) : List Char :=
  replaceAllAux pat repl s.length s

/-! ### Constants from `strada/config/constants.py` -/

def CYKEL_CATEGORY : String := "Cykel"

def G1_CRASH_TYPE : String := "G1 (cykel singel)"

def GENDER_UNKNOWN : String := "Uppgift saknas"

def PASSENGER_ROLES : List String :=
  ["Passsagerare övrig/okänd plats", "Passagerare bak", "Passagerare fram"]

/-- `MICROMOBILITY_KEYWORDS`: insertion-ordered category → keyword list. -/
def MICROMOBILITY_KEYWORDS : List (String × List String) :=
  [("E-scooter",
    ["elscooter", "elspark", "el-spark", "elkickbike", "el-kickbike",
     "kickbike", "elsparkcykel", "el-sparkcykel", "elsparkcyklar",
     "el-sparkcyklar", "elsparkscykel", "elsparkscyklar", "el-sparkscykel",
     "elsparken", "elscootern", "e-scooter", "e-scootern",
     "elscootrar", "elscootrarna", "scooter", "scootern", "scootrar",
     "skoter", "skotern", "skotrar", "elskoter", "el-skoter",
     "el sparkcykel", "el sparkscykel", "el sparkcyklar",
     "el scooter", "el-scooter",
     "elsparcykel", "el-sparcykel", "elsparcykeln",
     "elsparkcykeln", "elsparkcyklarna",
     "el-sparkcykeln", "el-sparkcyklarna",
     "elsarkcykel", "elparkcykel", "elsparlcykel", "el-sparlcykel",
     "el-sparlcyklar", "elsparlcyklar",
     "scotter", "elscotter", "el-scotter",
     "elscoter", "el-scotty", "sparkcykel",
     "voi", "voien", "VOJ", "lime", "bird", "tier", "ryde",
     "spark", "Eldrivet enpersonsfordon", "elsparcyklar", "El-kick",
     "eldrivet enpersonfordon", "Eldrivna enpersonsfordonet",
     "elsccoter"]),
   ("E-bike",
    ["elcykel", "e-bike", "elcyklar", "el-cykel", "el-cyklar",
     "elcykler", "elcykeln", "elcyklarna", "elcykelar", "elcykelarna",
     "eldriven cyklar", "eldriven cykel",
     "el-driven cykel", "el driven cykel",
     "el driven cyklar", "el-driven cyklar",
     "el-cykeln", "el-cyklarna",
     "fatbike", "fat-bike", "fatbiken",
     "speed pedelec", "speedpedelec",
     "el-bike", "el bike", "elcyckel",
     "lådcykeln", "låd cykel", "lådcykel", "lådcykel", "lådcykeln",
     "elcyklist", "el-cyklist"]),
   ("rullstol/permobil",
    ["rullstol", "permobil", "elrullstol", "el-rullstol", "rullstolar"]),
   ("other_micromobility",
    ["elskateboarden", "elskateboard", "enhjuling", "onewheel",
     "el-skateboard", "elmoped", "långboard", "el-långboard",
     "hoverboard", "elhoverboard", "el-hoverboard", "moped", "el-moped",
     "skateboard", "inlines"])]

/-- `WHOLE_WORD_KEYWORDS` (a Python set of lowercase strings; only
membership is ever used, so a list is an adequate model). -/
def WHOLE_WORD_KEYWORDS : List String :=
  ["voi", "voien", "voj", "lime", "bird", "tier", "ryde", "spark"]

def MICROMOBILITY_PRIORITY : List String :=
  ["E-scooter", "E-bike", "rullstol/permobil", "other_micromobility",
   "Conventional bicycle"]

def ELECTRIC_UNDERGRUPP : List String :=
  ["Elcykel", "Eldrivet enpersonsfordon", "Sparkcykel", "Eldriven rullstol"]

def UNDERGRUPP_MAP : List (String × String) :=
  [("Elcykel", "E-bike"),
   ("Eldrivet enpersonsfordon", "E-scooter"),
   ("Eldriven rullstol", "rullstol/permobil"),
   ("Sparkcykel", "E-scooter"),
   ("Rullstol", "rullstol/permobil"),
   ("Inlines", "other_micromobility"),
   ("Skateboard", "other_micromobility"),
   ("Cykel - Annan", "Conventional bicycle"),
   ("Cykel", "Conventional bicycle")]

/-- `UNDERGRUPP_MAP.get`. -/
def lookupUgMap (s : String) : Option String :=
  (UNDERGRUPP_MAP.find? (fun e => e.1 == s)).map (fun e => e.2)

def CONFLICT_PARTNER_EXCLUSIONS : List (String × List String) :=
  [("E-scooter", ["Eldrivet enpersonsfordon", "Sparkcykelåkare"]),
   ("E-bike", ["Elcykel"]),
   ("rullstol/permobil", ["Eldriven rullstol", "Rullstolsburen"])]

def SPECIFIC_UNDERGRUPP_P : List String :=
  ["Eldrivet enpersonsfordon", "Elcykel", "Eldriven rullstol"]

/-! ### Data model

One record per row of the `Personer` / `Olyckor` tables.  A field is
`none` when the cell holds pandas `NaN`.  `crashId` (`Olycksnummer`) is a
number; the date parts and the hour bucket are numbers; everything else is
text.  For fields that the code passes through Python `str(...)`, the model
stores the rendered string. -/

structure Person where
  crashId : Nat
  crashType : Option String
  year : Option Int
  month : Option Int
  day : Option Int
  time : Option Int
  age : Option String
  gender : Option String
  county : Option String
  municipality : Option String
  street : Option String
  categoryMain : Option String
  categorySub : Option String
  categoryP : Option String
  categoryS : Option String
  roleP : Option String
  roleS : Option String
  eventP : Option String
  eventS : Option String
  teNrP : Option String
  konfliktUg : Option String
deriving DecidableEq, Repr

structure Crash where
  crashId : Nat
  crashType : Option String
deriving DecidableEq, Repr

/-- A person record with every cell `NaN` and crash id 0; concrete rows are
written as updates of it. -/
def emptyPerson : Person :=
  ⟨0, none, none, none, none, none, none, none, none, none, none, none,
   none, none, none, none, none, none, none, none, none⟩

/-- A lone cycling person (used by concrete instantiations). -/
def soloCykelPerson : Person :=
  { emptyPerson with crashId := 7, categoryMain := some "Cykel" }

/-- A cycling person with only a hospital narrative (used by concrete
instantiations). -/
def hospCykelPerson : Person :=
  { emptyPerson with categoryMain := some "Cykel", eventS := some "elcykel" }

/-! ### `classify.py` — keyword matching and priority -/

/-- Does one keyword match the (already lowercased) text?  Mirrors the body
of the inner loop of `_find_keyword_matches`: the lowercased keyword is
checked against `WHOLE_WORD_KEYWORDS`; whole-word keywords need a
`\b`-delimited occurrence, the rest plain substring containment. -/
def kwHit (textLower : List Char) (kw : String) : Bool :=
  let kwLower := pyLower kw.data
  if WHOLE_WORD_KEYWORDS.contains (String.mk kwLower) then
    wbSearch kwLower none textLower
  else
    containsSub kwLower textLower

/-- `_find_keyword_matches(text, keywords_dict)`: the categories with at
least one matching keyword, in dictionary order.  The Python inner loop
appends the category and breaks at the first matching keyword, which is
exactly `List.any` on the keyword list. -/
def findKeywordMatches (text : List Char) (dict : List (String × List String)) :
    List String :=
  let textLower := pyLower text
  (dict.filter (fun e => e.2.any (fun kw => kwHit textLower kw))).map (fun e => e.1)

/-- `_resolve_priority(matches)`: walk `MICROMOBILITY_PRIORITY` and return
the first category present in `matches`. -/
def resolvePriority (ms : List String) : Option String :=
  MICROMOBILITY_PRIORITY.find? (fun cat => ms.contains cat)

/-! ### `classify.py` — Step 1 Guard B (`_try_trafikelement_disambiguation`)

The guard searches the lowercased `(P)` narrative for the regex

  `(?:cyklist|förare|trafikant|fordon|part)\s*<te_nr>\s*\(?\s*(.{1,80})`

and, at the leftmost match, runs the keyword matcher on the captured group.
The pieces `\s*` and `\(?` are greedy with backtracking and `.{1,80}` is a
final greedy capture of 1 to 80 non-newline characters; the model makes the
backtracking explicit with a decreasing consumption counter. -/

/-- Final piece `(.{1,80})`: capture up to 80 characters, stopping at a
newline; fail when no character is available. -/
def captureDot (s : List Char) : Option (List Char) :=
  let m := min 80 (s.takeWhile (fun c => c != '\n')).length
  if m = 0 then none else some (s.take m)

/-- `\s*` before a continuation `k`: greedy, trying `i` consumed whitespace
characters first and backtracking down to zero. -/
def tryWsAux (k : List Char → Option (List Char)) (s : List Char) :
    Nat → Option (List Char)
  | 0 => k s
  | i + 1 =>
    match k (s.drop (i + 1)) with
    | some r => some r
    | none => tryWsAux k s i

/-- `\s*` followed by `k`, starting from the maximal whitespace run. -/
def tryWs (k : List Char → Option (List Char)) (s : List Char) :
    Option (List Char) :=
  tryWsAux k s (s.takeWhile isPySpace).length

/-- `\(?` followed by `k`: greedily consume one `(` when present, falling
back to consuming nothing. -/
def tryParen (k : List Char → Option (List Char)) : List Char → Option (List Char)
  | '(' :: t =>
    match k t with
    | some r => some r
    | none => k ('(' :: t)
  | s => k s

/-- The alternation words of the reference pattern, in alternation order. -/
def roleWords : List (List Char) :=
  ["cyklist".data, "förare".data, "trafikant".data, "fordon".data, "part".data]

/-- Match the part of the pattern after the role word
(`\s*<te_nr>\s*\(?\s*(.{1,80})`) at the start of `s`. -/
def afterRole (teNr : List Char) (s : List Char) : Option (List Char) :=
  tryWs (fun s2 =>
    if teNr.isPrefixOf s2 then
      tryWs (fun s4 => tryParen (fun s5 => tryWs captureDot s5) s4)
        (s2.drop teNr.length)
    else none) s

/-- Match the full reference pattern at the start of `s`, trying the
alternation in order. -/
def teMatchAt (teNr : List Char) (s : List Char) : Option (List Char) :=
  roleWords.foldl (fun acc w =>
    match acc with
    | some r => some r
    | none => if w.isPrefixOf s then afterRole teNr (s.drop w.length) else none)
    none

/-- `re.search` of the reference pattern: leftmost position wins. -/
def teSearch (teNr : List Char) : List Char → Option (List Char)
  | [] => teMatchAt teNr []
  | c :: t =>
    match teMatchAt teNr (c :: t) with
    | some r => some r
    | none => teSearch teNr t

/-- `_try_trafikelement_disambiguation(text_p, person_te_nr, keywords_dict)`.
`textP` is the already `str(...)`-converted narrative (so never `NaN`);
`personTeNr` is the raw cell, stored as its `str(...)` rendering when
present.  `te_nr` has every `".0"` removed (`"1.0"` → `"1"`). -/
def tryTrafikelementDisambiguation (textP : String) (personTeNr : Option String)
    (dict : List (String × List String)) : Option String :=
  match personTeNr with
  | none => none
  | some te =>
    if textP = "" then none
    else
      match teSearch (replaceAll ".0".data [] te.data) (pyLower textP.data) with
      | none => none
      | some contextAfter =>
        if findKeywordMatches contextAfter dict ≠ [] then
          resolvePriority (findKeywordMatches contextAfter dict)
        else none

/-! ### `classify.py` — Step 1 Guard C and Step 2 Guard B -/

/-- `_try_undergrupp_p_cross_reference(matches, person_ug_p, other_persons_ug_p)`. -/
def tryUndergruppPCrossReference (ms : List String)
    (personUgP : Option String) (otherUgP : List (Option String)) :
    List String :=
  match personUgP with
  | none => ms
  | some ugRaw =>
    if ms = [] then ms
    else
      let personUg := stripStr ugRaw
      if SPECIFIC_UNDERGRUPP_P.contains personUg then ms
      else
        let otherSpecific :=
          ((otherUgP.filterMap id).map stripStr).filter
            (fun u => SPECIFIC_UNDERGRUPP_P.contains u)
        if otherSpecific = [] then ms
        else
          let excludeCategories :=
            (otherSpecific.filterMap lookupUgMap).filter
              (fun m => ms.contains m)
          if excludeCategories ≠ [] then
            ms.filter (fun m => !excludeCategories.contains m)
          else ms

/-- `_apply_conflict_partner_exclusion(matches, konflikt_undergrupp)` (the
Python locals `konflikt` and `exclude` are inlined). -/
def applyConflictPartnerExclusion (ms : List String)
    (konfliktUndergrupp : Option String) : List String :=
  match konfliktUndergrupp with
  | none => ms
  | some kg =>
    if ms = [] then ms
    else
      if ((CONFLICT_PARTNER_EXCLUSIONS.filter (fun e =>
            e.2.contains (stripStr kg) && ms.contains e.1)).map (fun e => e.1)) ≠ [] then
        ms.filter (fun m =>
          !(((CONFLICT_PARTNER_EXCLUSIONS.filter (fun e =>
            e.2.contains (stripStr kg) && ms.contains e.1)).map (fun e => e.1)).contains m))
      else ms

/-- `_undergrupp_agrees(category, sammanvagd_ug)`. -/
def undergruppAgrees (category : String) (sammanvagdUg : Option String) : Bool :=
  match sammanvagdUg with
  | none => false
  | some u => lookupUgMap (stripStr u) == some category

/-! ### `classify.py` — the 4-step guarded pipeline

The Python locals (`matches_p`, `matches_s`, `filtered`, `ug_val`, ...)
are pure abbreviations and are inlined below. -/

/-- The mutable per-person state of `classify_micromobility`'s loop body
(`result`, `all_matches`, `confidence`, `step`). -/
structure CState where
  result : Option String
  allMatches : List String
  confidence : String
  step : String
deriving DecidableEq, Repr

def CState.init : CState := ⟨none, [], "", ""⟩

/-- `has_p` / `has_s`: `pd.notna(text) and str(text).strip() != ""`. -/
def hasText : Option String → Bool
  | none => false
  | some s => pyStrip s.data ≠ []

/-- Step 1 — `(P)` narrative with guards A-D. -/
def step1Phase (p : Person) (isSolo : Bool) (otherUgP : List (Option String))
    (st : CState) : CState :=
  match p.eventP with
  | none => st
  | some textP =>
    if pyStrip textP.data ≠ [] ∧ st.result = none then
      if findKeywordMatches textP.data MICROMOBILITY_KEYWORDS ≠ [] then
        if isSolo then
          { st with
            result := resolvePriority (findKeywordMatches textP.data MICROMOBILITY_KEYWORDS),
            allMatches := findKeywordMatches textP.data MICROMOBILITY_KEYWORDS,
            step := "Step 1 (P, solo)" }
        else
          match tryTrafikelementDisambiguation textP p.teNrP MICROMOBILITY_KEYWORDS with
          | some guardB =>
            { st with
              result := some guardB,
              allMatches := findKeywordMatches textP.data MICROMOBILITY_KEYWORDS,
              step := "Step 1 (P, Guard B: TE Nr)" }
          | none =>
            if tryUndergruppPCrossReference
                (findKeywordMatches textP.data MICROMOBILITY_KEYWORDS)
                p.categoryP otherUgP ≠ [] then
              { st with
                result := resolvePriority (tryUndergruppPCrossReference
                  (findKeywordMatches textP.data MICROMOBILITY_KEYWORDS)
                  p.categoryP otherUgP),
                allMatches := findKeywordMatches textP.data MICROMOBILITY_KEYWORDS,
                step := "Step 1 (P, Guard C: UG cross-ref)" }
            else st
      else st
    else st

/-- Step 2 — `(S)` narrative with guards A-C. -/
def step2Phase (p : Person) (isSolo : Bool) (st : CState) : CState :=
  match p.eventS with
  | none => st
  | some textS =>
    if pyStrip textS.data ≠ [] ∧ st.result = none then
      if findKeywordMatches textS.data MICROMOBILITY_KEYWORDS ≠ [] then
        if isSolo then
          { st with
            result := resolvePriority (findKeywordMatches textS.data MICROMOBILITY_KEYWORDS),
            allMatches := findKeywordMatches textS.data MICROMOBILITY_KEYWORDS,
            step := "Step 2 (S, solo)" }
        else
          if applyConflictPartnerExclusion
              (findKeywordMatches textS.data MICROMOBILITY_KEYWORDS)
              p.konfliktUg ≠ [] then
            if hasText p.konfliktUg then
              { st with
                result := resolvePriority (applyConflictPartnerExclusion
                  (findKeywordMatches textS.data MICROMOBILITY_KEYWORDS) p.konfliktUg),
                allMatches := findKeywordMatches textS.data MICROMOBILITY_KEYWORDS,
                step := "Step 2 (S, Guard B: I Konflikt med)" }
            else
              { st with
                result := resolvePriority (applyConflictPartnerExclusion
                  (findKeywordMatches textS.data MICROMOBILITY_KEYWORDS) p.konfliktUg),
                allMatches := findKeywordMatches textS.data MICROMOBILITY_KEYWORDS,
                step := "Step 2 (S, Guard C: per-person assumption)",
                confidence := "medium" }
          else st
      else st
    else st

/-- Step 3 — structured `Undergrupp` fallback. -/
def step3Phase (p : Person) (st : CState) : CState :=
  if st.result = none then
    match lookupUgMap (match p.categorySub with
                       | some u => stripStr u
                       | none => "") with
    | some mapped =>
      if mapped ≠ "Conventional bicycle" then
        { st with result := some mapped, step := "Step 3 (Undergrupp fallback)",
                  confidence := "low" }
      else st
    | none => st
  else st

/-- Step 4 — default. -/
def step4Phase (st : CState) : CState :=
  if st.result = none then
    { st with result := some "Conventional bicycle", step := "Step 4 (default)",
              confidence := "default" }
  else st

/-- Post-hoc confidence: `high` when the Sammanvägd Undergrupp corroborates
the result, else `medium`.  After Step 4 `result` is always set, so the
`getD` default is never used. -/
def finalizeConfidence (p : Person) (st : CState) : CState :=
  if st.confidence = "" then
    if undergruppAgrees (st.result.getD "") p.categorySub then
      { st with confidence := "high" }
    else
      { st with confidence := "medium" }
  else st

/-- The loop body of `classify_micromobility` for one Cykel person, given
the crash context (`is_solo` and the other Cykel persons' `Undergrupp (P)`
values in table order). -/
def classifyPerson (p : Person) (isSolo : Bool) (otherUgP : List (Option String)) :
    CState :=
  finalizeConfidence p
    (step4Phase (step3Phase p (step2Phase p isSolo
      (step1Phase p isSolo otherUgP CState.init))))

/-- `df[COL_CATEGORY_MAIN] == CYKEL_CATEGORY` (pandas `==`: `NaN` compares
unequal to any string). -/
def isCykel (p : Person) : Bool := p.categoryMain == some CYKEL_CATEGORY

/-- Number of Cykel persons sharing `cid` (`cykel_per_crash`). -/
def cykelCount (rows : List Person) (cid : Nat) : Nat :=
  (rows.filter (fun q => isCykel q && q.crashId == cid)).length

/-- The `Undergrupp (P)` values of the other Cykel persons of the same
crash, in table order (Guard C's `other_ug_p`). -/
def otherUgPOf (rows : List Person) (i : Nat) (p : Person) : List (Option String) :=
  ((rows.enum.filter (fun jq =>
    isCykel jq.2 && jq.2.crashId == p.crashId && jq.1 != i)).map
    (fun jq => jq.2.categoryP))

/-- The classification columns added to one row. -/
structure ClassifiedRow where
  mmType : String
  confidence : String
  stepName : String
  allMatches : List String
deriving DecidableEq, Repr

/-- `classify_micromobility`: every column is initialised to
`"N/A"` / `""` / `[]` and only Cykel rows are overwritten by the pipeline.
After Step 4 `result` is provably `some`, so the `getD` default `"N/A"` is
never used for a Cykel row. -/
def classifyTable (rows : List Person) : List ClassifiedRow :=
  rows.enum.map (fun ip =>
    if isCykel ip.2 then
      let st := classifyPerson ip.2 (cykelCount rows ip.2.crashId == 1)
        (otherUgPOf rows ip.1 ip.2)
      ⟨st.result.getD "N/A", st.confidence, st.step, st.allMatches⟩
    else ⟨"N/A", "", "", []⟩)

/-! ### `verify.py` — result container and pandas helpers -/

def COL_CRASH_ID : String := "Olycksnummer"
def COL_YEAR : String := "År"
def COL_MONTH : String := "Månad"
def COL_DAY : String := "Dag"
def COL_TIME : String := "Klockslag grupp (timme)"
def COL_AGE : String := "Ålder"
def COL_GENDER : String := "Kön"
def COL_COUNTY : String := "Län"
def COL_MUNICIPALITY : String := "Kommun"
def COL_STREET : String := "Olycksväg/-gata"
def COL_CATEGORY_MAIN : String := "Sammanvägd Trafikantkategori - Huvudgrupp"

def DUPLICATE_DETECTION_COLS : List String :=
  [COL_AGE, COL_YEAR, COL_MONTH, COL_DAY, COL_GENDER, COL_COUNTY,
   COL_MUNICIPALITY, COL_TIME, COL_STREET, COL_CATEGORY_MAIN]

/-- A cell of a detail DataFrame. -/
inductive PyVal where
  | vStr (s : String)
  | vNat (n : Nat)
  | vNone
deriving DecidableEq, Repr

/-- One detail row, as an ordered column-name/value record (the checks
build their rows as Python dicts). -/
abbrev Row := List (String × PyVal)

/-- `VerificationResult` from `strada/io/reporters.py` (`details` is `None`
or a list of rows; `sub_results` nests). -/
inductive VResult where
  | mk (check_id check_name status summary : String) (issue_count : Nat)
       (details : Option (List Row)) (sub_results : List VResult)

def VResult.check_id : VResult → String
  | ⟨i, _, _, _, _, _, _⟩ => i

def VResult.check_name : VResult → String
  | ⟨_, n, _, _, _, _, _⟩ => n

def VResult.status : VResult → String
  | ⟨_, _, s, _, _, _, _⟩ => s

def VResult.summary : VResult → String
  | ⟨_, _, _, s, _, _, _⟩ => s

def VResult.issue_count : VResult → Nat
  | ⟨_, _, _, _, c, _, _⟩ => c

def VResult.details : VResult → Option (List Row)
  | ⟨_, _, _, _, _, d, _⟩ => d

def VResult.sub_results : VResult → List VResult
  | ⟨_, _, _, _, _, _, r⟩ => r

/-- The persons DataFrame: its column set (consulted by G6's
missing-column guard) and its rows.  By convention a column absent from
`cols` is all-`NaN` in the rows. -/
structure PTable where
  cols : List String
  rows : List Person

/-- `s.isna() | (s.astype(str).str.strip() == "")` for one cell. -/
def isBlank : Option String → Bool
  | none => true
  | some s => (pyStrip s.data).isEmpty

/-- pandas `!=` on two cells: `NaN` compares unequal to everything,
including another `NaN`. -/
def pyNe : Option String → Option String → Bool
  | some x, some y => x != y
  | _, _ => true

/-- pandas `!=` against a string constant. -/
def pyNeScalar (v : Option String) (s : String) : Bool :=
  match v with
  | some x => x != s
  | none => true

/-- Python `str(...)` of a possibly-`NaN` text cell (`str(nan) = "nan"`). -/
def pyStr : Option String → String
  | some s => s
  | none => "nan"

/-- Python `str(...)` of a possibly-`NaN` numeric cell, assuming the
column is integer-typed. -/
def pyStrInt : Option Int → String
  | some n => toString n
  | none => "nan"

/-- `fillna("").astype(str)` on a text cell. -/
def fillStr : Option String → String
  | some s => s
  | none => ""

/-- `fillna("").astype(str)` on an integer cell. -/
def fillInt : Option Int → String
  | some n => toString n
  | none => ""

/-- Ascending sort of crash ids (Python `sorted`, pandas sorted groupby
keys). -/
def natSort (l : List Nat) : List Nat := l.mergeSort (fun a b => a ≤ b)

/-- Insert a thousands separator every three digits, on the reversed digit
list (helper for Python's `{n:,}` format). -/
def commaSepRev : List Char → Nat → List Char
  | [], _ => []
  | c :: t, i =>
    c :: (if (i + 1) % 3 = 0 ∧ t ≠ [] then ',' :: commaSepRev t (i + 1)
          else commaSepRev t (i + 1))

/-- Python `f"{n:,}"`. -/
def commaFmt (n : Nat) : String :=
  String.mk ((commaSepRev (toString n).data.reverse 0).reverse)

/-- pandas `unique()` on the non-`NaN` values of a column slice. -/
def uniqueStrs (vals : List (Option String)) : List String :=
  (vals.filterMap id).pdUnique

/-- `nunique()` of a text column slice (distinct non-`NaN` values). -/
def nuniqueStr (vals : List (Option String)) : Nat := (uniqueStrs vals).length

/-- `nunique()` of an integer column slice. -/
def nuniqueInt (vals : List (Option Int)) : Nat :=
  ((vals.filterMap id).pdUnique).length

/-! ### `verify.py` — G1 crash-id consistency -/

/-- `check_g1_id_consistency(df_olyckor, df_personer)`. -/
def checkG1 (olyckor : List Crash) (pt : PTable) : VResult :=
  let olyckorIds := (olyckor.map (fun c => c.crashId)).pdUnique
  let personerIds := (pt.rows.map (fun p => p.crashId)).pdUnique
  let olyckorOnly := natSort (olyckorIds.filter (fun c => !personerIds.contains c))
  let personerOnly := natSort (personerIds.filter (fun c => !olyckorIds.contains c))
  let rows : List Row :=
    olyckorOnly.map (fun cid =>
      [(COL_CRASH_ID, PyVal.vNat cid), ("Found_in", PyVal.vStr "Olyckor only")]) ++
    personerOnly.map (fun cid =>
      [(COL_CRASH_ID, PyVal.vNat cid), ("Found_in", PyVal.vStr "Personer only")])
  let nIssues := rows.length
  let summary :=
    if nIssues = 0 then
      "✓ All Olycksnummer match perfectly. Total unique crashes: " ++
        commaFmt olyckorIds.length
    else
      "⚠ " ++ toString olyckorOnly.length ++ " in Olyckor only, " ++
        toString personerOnly.length ++ " in Personer only"
  VResult.mk "G1" "Crash-ID (Olycksnummer) consistency"
    (if nIssues = 0 then "pass" else "warning") summary nIssues
    (if rows ≠ [] then some rows else none) []

/-! ### `verify.py` — G2 crash-type consistency -/

/-- `df_personer[[id, type]].drop_duplicates(COL_CRASH_ID)`: keep the first
row of each crash id. -/
def dedupByCrashId : List Person → List Nat → List Person
  | [], _ => []
  | r :: t, seen =>
    if seen.contains r.crashId then dedupByCrashId t seen
    else r :: dedupByCrashId t (r.crashId :: seen)

/-- A `NaN`-able cell rendered into a detail row. -/
def cellOpt : Option String → PyVal
  | some s => PyVal.vStr s
  | none => PyVal.vNone

/-- `check_g2_crash_type(df_olyckor, df_personer)`. -/
def checkG2 (olyckor : List Crash) (pt : PTable) : VResult :=
  let missingO := olyckor.filter (fun c => isBlank c.crashType)
  let missingPCrashes :=
    ((pt.rows.filter (fun p => isBlank p.crashType)).map (fun p => p.crashId)).pdUnique
  let nMissing := missingO.length + missingPCrashes.length
  let sub1Summary :=
    if nMissing = 0 then "✓ All records have Olyckstyp filled"
    else
      "⚠ Missing in Olyckor: " ++ toString missingO.length ++
        ", Missing in Personer (unique crashes): " ++ toString missingPCrashes.length
  let rowsMissing : List Row :=
    missingO.map (fun c =>
      [(COL_CRASH_ID, PyVal.vNat c.crashId), ("Source", PyVal.vStr "Olyckor")]) ++
    missingPCrashes.map (fun cid =>
      [(COL_CRASH_ID, PyVal.vNat cid), ("Source", PyVal.vStr "Personer")])
  let sub1 := VResult.mk "G2.1" "Missing Olyckstyp"
    (if nMissing = 0 then "pass" else "warning") sub1Summary nMissing
    (if rowsMissing ≠ [] then some rowsMissing else none) []
  let personerTypes := dedupByCrashId pt.rows []
  let merged := olyckor.filterMap (fun c =>
    (personerTypes.find? (fun p => p.crashId == c.crashId)).map
      (fun p => (c.crashId, c.crashType, p.crashType)))
  let mismatched := merged.filter (fun m => pyNe m.2.1 m.2.2)
  let sub2Summary :=
    if mismatched.length = 0 then "✓ All Olyckstyp values match between datasets"
    else "⚠ " ++ toString mismatched.length ++ " crashes with mismatched Olyckstyp"
  let rows2 : List Row := mismatched.map (fun m =>
    [(COL_CRASH_ID, PyVal.vNat m.1), ("Olyckstyp_Olyckor", cellOpt m.2.1),
     ("Olyckstyp_Personer", cellOpt m.2.2)])
  let sub2 := VResult.mk "G2.2" "Olyckstyp mismatch between datasets"
    (if mismatched.length = 0 then "pass" else "warning") sub2Summary
    mismatched.length (if mismatched.length > 0 then some rows2 else none) []
  let total := nMissing + mismatched.length
  VResult.mk "G2" "Crash-type (Olyckstyp) consistency"
    (if total = 0 then "pass" else "warning")
    (toString total ++ " total issues across sub-checks") total none [sub1, sub2]

/-! ### `verify.py` — G3 road-user-category consistency -/

/-- The "effective" category of G3.3: `P` where non-blank, else `S`. -/
def effCat (q : Person) : Option String :=
  if !isBlank q.categoryP then q.categoryP else q.categoryS

/-- `check_g3_road_user_category(df_olyckor, df_personer)`.  Rows are
carried with their positional index so that the `drop(mismatched_ps.index)`
of G3.3 can be mirrored.  (The source computes a first, column-wide
`prefix_match` and immediately overwrites it with the row-wise version;
only the latter is live and only it is modelled.) -/
def checkG3 (_olyckor : List Crash) (pt : PTable) : VResult :=
  let ip := pt.rows.enum
  let allMissing := ip.filter (fun e =>
    isBlank e.2.categoryP && isBlank e.2.categoryS && isBlank e.2.categorySub)
  let n31 := allMissing.length
  let details31 : List Row :=
    ((allMissing.map (fun e => e.2.crashId)).pdUnique).map
      (fun cid => [(COL_CRASH_ID, PyVal.vNat cid)])
  let sub1 := VResult.mk "G3.1" "All three Trafikantkategori columns missing"
    (if n31 = 0 then "pass" else "warning")
    (if n31 = 0 then "✓ All persons have at least one Trafikantkategori column filled"
     else "⚠ " ++ toString n31 ++ " persons with all three columns missing")
    n31 (if n31 > 0 then some details31 else none) []
  let bothFilled := ip.filter (fun e =>
    !isBlank e.2.categoryP && !isBlank e.2.categoryS)
  let mismatchedPS := bothFilled.filter (fun e => pyNe e.2.categoryP e.2.categoryS)
  let n32 := mismatchedPS.length
  let details32 : List Row := mismatchedPS.map (fun e =>
    [(COL_CRASH_ID, PyVal.vNat e.2.crashId),
     ("Trafikantkategori (P) - Undergrupp", cellOpt e.2.categoryP),
     ("Trafikantkategori (S) - Undergrupp", cellOpt e.2.categoryS)])
  let sub2 := VResult.mk "G3.2" "P and S categories mismatch when both filled"
    (if n32 = 0 then "pass" else "warning")
    (if n32 = 0 then
      "✓ All " ++ toString bothFilled.length ++
        " persons with both P and S filled have matching values"
     else "⚠ " ++ toString n32 ++ " persons where P ≠ S")
    n32 (if n32 > 0 then some details32 else none) []
  let dfCheck :=
    if n32 > 0 then
      ip.filter (fun e => !(mismatchedPS.map (fun m => m.1)).contains e.1)
    else ip
  let comparable := dfCheck.filter (fun e =>
    !isBlank (effCat e.2) && !isBlank e.2.categorySub)
  let mismatch33 := comparable.filter (fun e =>
    pyNe (effCat e.2) e.2.categorySub &&
      !(pyStr e.2.categorySub).data.isPrefixOf (pyStr (effCat e.2)).data)
  let n33 := mismatch33.length
  let details33 : List Row := mismatch33.map (fun e =>
    [(COL_CRASH_ID, PyVal.vNat e.2.crashId),
     ("Filled_category", cellOpt (effCat e.2)),
     ("Sammanvägd Trafikantkategori - Undergrupp", cellOpt e.2.categorySub)])
  let sub3 := VResult.mk "G3.3" "Filled P/S ≠ Sammanvägd"
    (if n33 = 0 then "pass" else "warning")
    (if n33 = 0 then "✓ All filled P/S categories match Sammanvägd"
     else "⚠ " ++ toString n33 ++ " discrepancies between filled category and Sammanvägd")
    n33 (if n33 > 0 then some details33 else none) []
  let bfSam := bothFilled.filter (fun e => !isBlank e.2.categorySub)
  let mismatch34 := bfSam.filter (fun e =>
    !(!(pyNe e.2.categoryP e.2.categorySub) || !(pyNe e.2.categoryS e.2.categorySub) ||
      (pyStr e.2.categorySub).data.isPrefixOf (pyStr e.2.categoryP).data ||
      (pyStr e.2.categorySub).data.isPrefixOf (pyStr e.2.categoryS).data))
  let n34 := mismatch34.length
  let details34 : List Row := mismatch34.map (fun e =>
    [(COL_CRASH_ID, PyVal.vNat e.2.crashId),
     ("Trafikantkategori (P) - Undergrupp", cellOpt e.2.categoryP),
     ("Trafikantkategori (S) - Undergrupp", cellOpt e.2.categoryS),
     ("Sammanvägd Trafikantkategori - Undergrupp", cellOpt e.2.categorySub)])
  let sub4 := VResult.mk "G3.4" "Neither P nor S matches Sammanvägd (both filled)"
    (if n34 = 0 then "pass" else "warning")
    (if n34 = 0 then "✓ At least one of P/S matches Sammanvägd in all cases"
     else "⚠ " ++ toString n34 ++ " cases where neither P nor S matches Sammanvägd")
    n34 (if n34 > 0 then some details34 else none) []
  let total := n31 + n32 + n33 + n34
  VResult.mk "G3" "Road-user category (Trafikantkategori) consistency"
    (if total = 0 then "pass" else "warning")
    (toString total ++ " total issues across sub-checks") total none
    [sub1, sub2, sub3, sub4]

/-! ### `verify.py` — G4 timeline consistency -/

/-- The crash ids with more than one person row, ascending (the index of
`counts[counts > 1]`; pandas groupby sorts its keys). -/
def multiPersonCrashIds (rows : List Person) : List Nat :=
  natSort (((rows.map (fun r => r.crashId)).pdUnique).filter
    (fun cid => (rows.filter (fun r => r.crashId == cid)).length > 1))

/-- `df_multi`: the person rows of multi-person crashes, in table order. -/
def multiPersonRows (rows : List Person) : List Person :=
  rows.filter (fun r => (multiPersonCrashIds rows).contains r.crashId)

/-- The `df_multi` slice of one crash. -/
def crashSlice (rows : List Person) (cid : Nat) : List Person :=
  (multiPersonRows rows).filter (fun r => r.crashId == cid)

/-- `(date_nuniq > 1).any(axis=1)` for one crash: some date column has
more than one distinct non-`NaN` value. -/
def g4DateBad (rows : List Person) (cid : Nat) : Bool :=
  nuniqueInt ((crashSlice rows cid).map (fun r => r.year)) > 1 ||
  nuniqueInt ((crashSlice rows cid).map (fun r => r.month)) > 1 ||
  nuniqueInt ((crashSlice rows cid).map (fun r => r.day)) > 1

/-- `date_bad_ids`, ascending. -/
def g4DateBadIds (rows : List Person) : List Nat :=
  (multiPersonCrashIds rows).filter (g4DateBad rows)

/-- `time_bad_ids`: more than one distinct time bucket, and not already a
date mismatch; ascending. -/
def g4TimeBadIds (rows : List Person) : List Nat :=
  (multiPersonCrashIds rows).filter (fun cid =>
    nuniqueInt ((crashSlice rows cid).map (fun r => r.time)) > 1 &&
      !(g4DateBadIds rows).contains cid)

/-- The date-mismatch detail rows, one per crash in `date_bad_ids` order. -/
def g4DateRows (rows : List Person) : List Row :=
  (g4DateBadIds rows).map (fun cid =>
    let dates := ((crashSlice rows cid).map
      (fun r => (r.year, r.month, r.day))).pdUnique
    let vals := dates.map (fun d =>
      pyStrInt d.1 ++ "-" ++ pyStrInt d.2.1 ++ "-" ++ pyStrInt d.2.2)
    [(COL_CRASH_ID, PyVal.vNat cid), ("Reason", PyVal.vStr "Date mismatch"),
     ("Details", PyVal.vStr (String.intercalate ", " vals))])

/-- One time-mismatch record before sorting: crash id, the distinct
non-`NaN` time buckets in table order, and the spread `max - min`
(the source's `try/except` fallback to 0 is unreachable for an
integer-typed column and corresponds to the empty-list case). -/
structure G4TimeRec where
  cid : Nat
  times : List Int
  diff : Int
deriving DecidableEq, Repr

/-- `time_rows` before sorting, in `time_bad_ids` order. -/
def g4TimeRecs (rows : List Person) : List G4TimeRec :=
  (g4TimeBadIds rows).map (fun cid =>
    let times := (((crashSlice rows cid).map (fun r => r.time)).filterMap id).pdUnique
    let diff := match times.max?, times.min? with
                | some mx, some mn => mx - mn
                | _, _ => 0
    ⟨cid, times, diff⟩)

/-- `time_rows.sort(key=lambda x: x["_diff"], reverse=True)`: stable sort
by spread, descending. -/
def g4TimeRecsSorted (rows : List Person) : List G4TimeRec :=
  (g4TimeRecs rows).mergeSort (fun a b => b.diff ≤ a.diff)

/-- The time-mismatch detail rows (the `_diff` key is popped). -/
def g4TimeRows (rows : List Person) : List Row :=
  (g4TimeRecsSorted rows).map (fun rec =>
    [(COL_CRASH_ID, PyVal.vNat rec.cid), ("Reason", PyVal.vStr "Time mismatch"),
     ("Details", PyVal.vStr (String.intercalate ", " (rec.times.map toString)))])

/-- All G4 detail rows: date mismatches first, then time mismatches. -/
def g4Rows (rows : List Person) : List Row := g4DateRows rows ++ g4TimeRows rows

/-- `check_g4_timeline(df_olyckor, df_personer)`. -/
def checkG4 (_olyckor : List Crash) (pt : PTable) : VResult :=
  let rows := g4Rows pt.rows
  let n := rows.length
  let nDate := (g4DateBadIds pt.rows).length
  let nTime := (g4TimeBadIds pt.rows).length
  let summary :=
    if n = 0 then "✓ All crashes have consistent date and time"
    else "⚠ " ++ toString nDate ++ " date mismatches, " ++
      toString nTime ++ " time mismatches"
  VResult.mk "G4" "Crash timeline consistency"
    (if n = 0 then "pass" else "warning") summary n
    (if rows ≠ [] then some rows else none) []

/-! ### `verify.py` — G5 location consistency -/

/-- `check_g5_location(df_olyckor, df_personer)`. -/
def checkG5 (_olyckor : List Crash) (pt : PTable) : VResult :=
  let lanBad := (multiPersonCrashIds pt.rows).filter (fun cid =>
    nuniqueStr ((crashSlice pt.rows cid).map (fun r => r.county)) > 1)
  let komBad := (multiPersonCrashIds pt.rows).filter (fun cid =>
    nuniqueStr ((crashSlice pt.rows cid).map (fun r => r.municipality)) > 1)
  let allBad := natSort ((lanBad ++ komBad).pdUnique)
  let rows : List Row := allBad.map (fun cid =>
    let reasons :=
      (if lanBad.contains cid then ["Län mismatch"] else []) ++
      (if komBad.contains cid then ["Kommun mismatch"] else [])
    let parts :=
      (if lanBad.contains cid then
        ["Län: " ++ String.intercalate ", "
          (uniqueStrs ((crashSlice pt.rows cid).map (fun r => r.county)))] else []) ++
      (if komBad.contains cid then
        ["Kommun: " ++ String.intercalate ", "
          (uniqueStrs ((crashSlice pt.rows cid).map (fun r => r.municipality)))] else [])
    [(COL_CRASH_ID, PyVal.vNat cid),
     ("Reason", PyVal.vStr (String.intercalate ", " reasons)),
     ("Details", PyVal.vStr (String.intercalate "; " parts))])
  let n := rows.length
  VResult.mk "G5" "Location consistency (Län / Kommun)"
    (if n = 0 then "pass" else "warning")
    (if n = 0 then "✓ All crashes have consistent location"
     else "⚠ " ++ toString n ++ " crashes with location inconsistencies")
    n (if rows ≠ [] then some rows else none) []

/-! ### `verify.py` — G6 duplicate-person detection -/

/-- The string signature of one person over the ten duplicate-detection
columns (`fillna("").astype(str)`), in `DUPLICATE_DETECTION_COLS` order. -/
structure G6Sig where
  age : String
  year : String
  month : String
  day : String
  gender : String
  county : String
  municipality : String
  time : String
  street : String
  cat : String
deriving DecidableEq, Repr

def g6SigOf (p : Person) : G6Sig :=
  ⟨fillStr p.age, fillInt p.year, fillInt p.month, fillInt p.day,
   fillStr p.gender, fillStr p.county, fillStr p.municipality,
   fillInt p.time, fillStr p.street, fillStr p.categoryMain⟩

def g6SigList (s : G6Sig) : List String :=
  [s.age, s.year, s.month, s.day, s.gender, s.county, s.municipality,
   s.time, s.street, s.cat]

/-- Python `<` on strings: lexicographic on code points. -/
def lexLtChars : List Char → List Char → Bool
  | [], [] => false
  | [], _ :: _ => true
  | _ :: _, [] => false
  | a :: as, b :: bs =>
    if a.toNat < b.toNat then true
    else if b.toNat < a.toNat then false
    else lexLtChars as bs

/-- Python `<` on equal-length string tuples. -/
def lexLtSig : List String → List String → Bool
  | [], _ => false
  | _ :: _, [] => false
  | a :: as, b :: bs =>
    if lexLtChars a.data b.data then true
    else if lexLtChars b.data a.data then false
    else lexLtSig as bs

/-- A Python single-quote character (for the `repr` of a string list). -/
def pyQuote : String := String.mk [Char.ofNat 39]

/-- Python `f"{missing_cols}"`: the `repr` of a list of strings. -/
def pyListRepr (l : List String) : String :=
  "[" ++ String.intercalate ", " (l.map (fun s => pyQuote ++ s ++ pyQuote)) ++ "]"

/-- One pre-sorting G6 group: its signature, its distinct crash ids in
table order, and its row count. -/
structure G6Group where
  sig : G6Sig
  uniqueCrashes : List Nat
  numEntries : Nat
deriving DecidableEq, Repr

/-- The flagged G6 groups in groupby order (keys sorted ascending as
string tuples): groups whose rows span more than one distinct crash id. -/
def g6FlaggedGroups (rows : List Person) : List G6Group :=
  let dfDup := rows.filter (fun p =>
    fillStr p.age ≠ "" && fillStr p.gender ≠ "" &&
      pyLowerStr (fillStr p.gender) ≠ pyLowerStr GENDER_UNKNOWN)
  let keys := ((dfDup.map g6SigOf).pdUnique).mergeSort
    (fun a b => !(lexLtSig (g6SigList b) (g6SigList a)))
  (keys.map (fun key =>
    let group := dfDup.filter (fun p => g6SigOf p == key)
    let uniqueCrashes := (group.map (fun p => p.crashId)).pdUnique
    G6Group.mk key uniqueCrashes group.length)).filter
    (fun g => g.uniqueCrashes.length > 1)

/-- The final G6 groups: stable sort by `Num_crashes` descending. -/
def g6SortedGroups (rows : List Person) : List G6Group :=
  (g6FlaggedGroups rows).mergeSort
    (fun a b => b.uniqueCrashes.length ≤ a.uniqueCrashes.length)

/-- `check_g6_duplicate_persons(df_olyckor, df_personer)`. -/
def checkG6 (_olyckor : List Crash) (pt : PTable) : VResult :=
  let missingCols := DUPLICATE_DETECTION_COLS.filter (fun c => !pt.cols.contains c)
  if missingCols ≠ [] then
    VResult.mk "G6" "Duplicate person detection" "fail"
      ("✗ Missing columns: " ++ pyListRepr missingCols) 0 none []
  else
    let rows : List Row := (g6SortedGroups pt.rows).map (fun g =>
      [("Olycksnummer", PyVal.vStr (String.intercalate ", "
          ((natSort g.uniqueCrashes).map (fun c => toString c)))),
       ("Num_crashes", PyVal.vNat g.uniqueCrashes.length),
       ("Num_entries", PyVal.vNat g.numEntries),
       ("Age", PyVal.vStr g.sig.age),
       ("Gender", PyVal.vStr g.sig.gender),
       ("Date", PyVal.vStr (g.sig.year ++ "-" ++ g.sig.month ++ "-" ++ g.sig.day)),
       ("Time", PyVal.vStr g.sig.time),
       ("County", PyVal.vStr g.sig.county),
       ("Municipality", PyVal.vStr g.sig.municipality),
       ("Street", PyVal.vStr g.sig.street),
       ("Road_user_type", PyVal.vStr g.sig.cat)])
    let n := rows.length
    VResult.mk "G6" "Duplicate person detection (all road-user types)"
      (if n = 0 then "pass" else "warning")
      (if n = 0 then "✓ No potential duplicate persons found"
       else "⚠ " ++ toString n ++
         " potential duplicate-person groups across different crashes")
      n (if rows ≠ [] then some rows else none) []

/-! ### `verify.py` — cycling-specific checks C1-C3 -/

/-- `check_c1_g1_single_cyclist(df_olyckor, df_personer)`. -/
def checkC1 (olyckor : List Crash) (pt : PTable) : VResult :=
  let g1Ids := ((olyckor.filter (fun c => c.crashType == some G1_CRASH_TYPE)).map
    (fun c => c.crashId)).pdUnique
  let g1Persons := pt.rows.filter (fun p => g1Ids.contains p.crashId)
  let gIds := natSort ((g1Persons.map (fun p => p.crashId)).pdUnique)
  let countOf := fun cid => (g1Persons.filter (fun p => p.crashId == cid)).length
  let multiIds := gIds.filter (fun cid => countOf cid > 1)
  let multiRows : List Row := multiIds.map (fun cid =>
    let grp := g1Persons.filter (fun p => p.crashId == cid)
    let nPassengers := (grp.filter (fun r =>
      containsSub "passagerare".data (pyLower (fillStr r.roleP).data) ||
      containsSub "passagerare".data (pyLower (fillStr r.roleS).data))).length
    let reason :=
      if nPassengers > 0 then
        "Multiple entries (" ++ toString grp.length ++ " persons, " ++
          toString nPassengers ++ " passengers)"
      else "Multiple entries (" ++ toString grp.length ++ " persons)"
    [(COL_CRASH_ID, PyVal.vNat cid), ("Reason", PyVal.vStr reason)])
  let singleIds := gIds.filter (fun cid => countOf cid = 1)
  let single := g1Persons.filter (fun p => singleIds.contains p.crashId)
  let notCykel := single.filter (fun p => pyNeScalar p.categoryMain CYKEL_CATEGORY)
  let singleRows : List Row := notCykel.map (fun r =>
    [(COL_CRASH_ID, PyVal.vNat r.crashId),
     ("Reason", PyVal.vStr ("Single entry but not Cykel (is: " ++
       pyStr r.categoryMain ++ ")"))])
  let rows := multiRows ++ singleRows
  let n := rows.length
  VResult.mk "C1" "G1 (cykel singel) crash validation"
    (if n = 0 then "pass" else "warning")
    (if n = 0 then
      "✓ All " ++ toString g1Ids.length ++ " G1 crashes have exactly one Cykel entry"
     else "⚠ " ++ toString n ++ " G1 crashes with issues")
    n (if rows ≠ [] then some rows else none) []

/-- `check_c2_cykel_presence(df_olyckor, df_personer)`. -/
def checkC2 (_olyckor : List Crash) (pt : PTable) : VResult :=
  let allIds := natSort ((pt.rows.map (fun p => p.crashId)).pdUnique)
  let missingIds := allIds.filter (fun cid =>
    !(pt.rows.filter (fun p => p.crashId == cid)).any isCykel)
  let rows : List Row := missingIds.map (fun cid =>
    let cats := uniqueStrs ((pt.rows.filter (fun p => p.crashId == cid)).map
      (fun p => p.categoryMain))
    [(COL_CRASH_ID, PyVal.vNat cid),
     ("Huvudgrupp_values", PyVal.vStr
       (if cats ≠ [] then String.intercalate ", " cats else "No values"))])
  let n := rows.length
  VResult.mk "C2" "Cykel presence in every crash"
    (if n = 0 then "pass" else "warning")
    (if n = 0 then
      "✓ All " ++ toString allIds.length ++ " crashes have at least one Cykel entry"
     else "⚠ " ++ toString n ++ " crashes without any Cykel entry")
    n (if rows ≠ [] then some rows else none) []

/-- `_is_pax` of C3: some passenger-role keyword occurs (case-sensitive
substring, `str.contains`) in the `(P)` or `(S)` role of the row. -/
def isPax (r : Person) : Bool :=
  PASSENGER_ROLES.any (fun role =>
    containsSub role.data (fillStr r.roleP).data ||
    containsSub role.data (fillStr r.roleS).data)

/-- `check_c3_cykel_passengers_only(df_olyckor, df_personer)`. -/
def checkC3 (_olyckor : List Crash) (pt : PTable) : VResult :=
  let cykel := pt.rows.filter isCykel
  if cykel.length = 0 then
    VResult.mk "C3" "Cykel crashes with only passengers (no driver)" "pass"
      "No Cykel entries in dataset" 0 none []
  else
    let ids := natSort ((cykel.map (fun p => p.crashId)).pdUnique)
    let onlyPax := ids.filter (fun cid =>
      (cykel.filter (fun p => p.crashId == cid)).all isPax)
    let rows : List Row := onlyPax.map (fun cid =>
      [(COL_CRASH_ID, PyVal.vNat cid),
       ("Num_passengers", PyVal.vNat
         ((cykel.filter (fun p => p.crashId == cid)).filter isPax).length)])
    let n := rows.length
    VResult.mk "C3" "Cykel crashes with only passengers (no driver)"
      (if n = 0 then "pass" else "warning")
      (if n = 0 then "✓ All Cykel crashes have at least one driver/cyclist"
       else "⚠ " ++ toString n ++ " Cykel crashes with only passengers")
      n (if rows ≠ [] then some rows else none) []

/-! ### `verify.py` — the check registry and runner -/

def GENERIC_CHECKS : List (List Crash → PTable → VResult) :=
  [checkG1, checkG2, checkG3, checkG4, checkG5, checkG6]

def CYCLING_CHECKS : List (List Crash → PTable → VResult) :=
  [checkC1, checkC2, checkC3]

/-- `run_checks(df_olyckor, df_personer, include_cycling, checks)`: run the
generic registry, plus the cycling registry when requested, keeping a
result exactly when no filter is given or its `check_id` is listed. -/
def runChecks (olyckor : List Crash) (pt : PTable) (includeCycling : Bool)
    (checks : Option (List String)) : List VResult :=
  let allFuncs := GENERIC_CHECKS ++ (if includeCycling then CYCLING_CHECKS else [])
  (allFuncs.map (fun f => f olyckor pt)).filter (fun r =>
    match checks with
    | none => true
    | some cs => cs.contains r.check_id)

/-! ### Conflict-Partner Annotator -/

/-- Modelled from the spec: the Conflict-Partner Annotator (spec §4.6).
The `Conflict_partner` column is declared by the module documentation of
`classify.py` ("A `Conflict_partner` column listing the other road-user
types involved in the same crash") and by the CLI/app front-ends, but its
implementation is not present under `src/`; this definition follows the
spec's words.  For a cycling-category person: collect the combined-category
values of every person sharing the crash id, remove exactly one instance of
the cycling-category value, answer "Single" when nothing remains and the
de-duplicated, order-preserving, comma-joined remainder otherwise; a
non-cycling person gets "N/A". -/
def conflictPartnerOf (rows : List Person) (p : Person) : String :=
  if isCykel p then
    let cats := (rows.filter (fun q => q.crashId == p.crashId)).filterMap
      (fun q => q.categoryMain)
    let rest := cats.erase CYKEL_CATEGORY
    if rest = [] then "Single"
    else String.intercalate ", " rest.pdUnique
  else "N/A"

/-- Modelled from the spec: the per-table Conflict-Partner annotation, one
value per person row. -/
def addConflictPartner (rows : List Person) : List String :=
  rows.map (conflictPartnerOf rows)

/-- The character immediately to the left of an occurrence that follows
the prefix `pre`, when the character before the whole text is `prev`: the
last character of `pre`, or `prev` when `pre` is empty (spec-side helper
for stating the `\b` semantics). -/
def leftCtx (prev : Option Char) : List Char → Option Char
  | [] => prev
  | c :: t => leftCtx (some c) t

/-! ## Shared lemmas -/

/-- `find?` returns a satisfying element of the list. -/
theorem find_mem_sat {α : Type} (p : α → Bool) :
    ∀ (l : List α) (c : α), l.find? p = some c → c ∈ l ∧ p c = true := by
  intro l
  induction l with
  | nil => intro c h; simp [ List.find?] at h
  | cons a t ih =>
    intro c h
    rw [ List.find?_cons] at h
    cases hpa : p a with
    | true =>
      rw [hpa] at h
      have h' : some a = some c := h
      cases h'
      exact ⟨List.mem_cons_self a t, hpa⟩
    | false =>
      rw [hpa] at h
      obtain ⟨hm, hp⟩ := ih c h
      exact ⟨List.mem_cons_of_mem a hm, hp⟩

/-- `find?` returns the first satisfying element: everything strictly
before it fails the predicate. -/
theorem find_first {α : Type} (p : α → Bool) :
    ∀ (l : List α) (c : α), l.find? p = some c →
      ∃ i, l.get? i = some c ∧
        ∀ j, j < i → ∀ d, l.get? j = some d → p d = false := by
  intro l
  induction l with
  | nil => intro c h; simp [ List.find?] at h
  | cons a t ih =>
    intro c h
    rw [ List.find?_cons] at h
    cases hpa : p a with
    | true =>
      rw [hpa] at h
      have h' : some a = some c := h
      cases h'
      exact ⟨0, rfl, fun j hj _ _ => absurd hj (Nat.not_lt_zero j)⟩
    | false =>
      rw [hpa] at h
      obtain ⟨i, hget, hbefore⟩ := ih c h
      refine ⟨i + 1, hget, ?_⟩
      intro j hj d hd
      cases j with
      | zero =>
        have hd' : some a = some d := hd
        cases hd'
        exact hpa
      | succ k => exact hbefore k (Nat.lt_of_succ_lt_succ hj) d hd

/-- `find? = none` exactly when no element satisfies the predicate. -/
theorem find_none_iff {α : Type} (p : α → Bool) (l : List α) :
    l.find? p = none ↔ ∀ a ∈ l, p a = false := by
  constructor
  · intro h a ha
    by_contra hp
    have := List.find?_isSome.2 ⟨a, ha, eq_true_of_ne_false hp⟩
    rw [h] at this
    simp at this
  · intro h
    cases hf : l.find? p with
    | none => rfl
    | some c =>
      obtain ⟨hm, hp⟩ := find_mem_sat p l c hf
      rw [h c hm] at hp
      cases hp

theorem mem_pdUniqueAux {α : Type} [DecidableEq α] :
    ∀ (l seen : List α) (x : α), x ∈ pdUniqueAux seen l ↔ x ∈ l ∧ x ∉ seen := by
  intro l
  induction l with
  | nil => simp [pdUniqueAux]
  | cons a t ih =>
    intro seen x
    simp only [pdUniqueAux]
    by_cases ha : a ∈ seen
    · rw [if_pos ha, ih]
      constructor
      · rintro ⟨hx, hns⟩
        exact ⟨List.mem_cons_of_mem a hx, hns⟩
      · rintro ⟨hx, hns⟩
        rcases List.mem_cons.1 hx with rfl | hx
        · exact absurd ha hns
        · exact ⟨hx, hns⟩
    · rw [if_neg ha]
      simp only [List.mem_cons, ih]
      constructor
      · rintro (rfl | ⟨hx, hns⟩)
        · exact ⟨Or.inl rfl, ha⟩
        · exact ⟨Or.inr hx, fun hs => hns (Or.inr hs)⟩
      · rintro ⟨rfl | hx, hns⟩
        · exact Or.inl rfl
        · by_cases hxa : x = a
          · exact Or.inl hxa
          · exact Or.inr ⟨hx, fun hs => hns (Or.elim hs (fun h => absurd h hxa) id)⟩

theorem mem_pdUnique {α : Type} [DecidableEq α] (l : List α) (x : α) :
    x ∈ l.pdUnique ↔ x ∈ l := by
  rw [List.pdUnique, mem_pdUniqueAux]
  simp

theorem mem_natSort (l : List Nat) (x : Nat) : x ∈ natSort l ↔ x ∈ l :=
  (List.mergeSort_perm l _).mem_iff

theorem natSort_sorted (l : List Nat) :
    List.Pairwise (fun x y : Nat => x ≤ y) (natSort l) := by
  unfold natSort
  refine List.Pairwise.imp ?_ (List.sorted_mergeSort ?_ ?_ l)
  · intro a b hab
    simpa using hab
  · intro a b c hab hbc
    simp only [decide_eq_true_eq] at *
    omega
  · intro a b
    simp only [Bool.or_eq_true, decide_eq_true_eq]
    omega

@[simp] theorem vr_check_id (i n s su : String) (c : Nat) (d : Option (List Row))
    (r : List VResult) : (VResult.mk i n s su c d r).check_id = i := rfl

@[simp] theorem vr_check_name (i n s su : String) (c : Nat) (d : Option (List Row))
    (r : List VResult) : (VResult.mk i n s su c d r).check_name = n := rfl

@[simp] theorem vr_status (i n s su : String) (c : Nat) (d : Option (List Row))
    (r : List VResult) : (VResult.mk i n s su c d r).status = s := rfl

@[simp] theorem vr_summary (i n s su : String) (c : Nat) (d : Option (List Row))
    (r : List VResult) : (VResult.mk i n s su c d r).summary = su := rfl

@[simp] theorem vr_issue_count (i n s su : String) (c : Nat) (d : Option (List Row))
    (r : List VResult) : (VResult.mk i n s su c d r).issue_count = c := rfl

@[simp] theorem vr_details (i n s su : String) (c : Nat) (d : Option (List Row))
    (r : List VResult) : (VResult.mk i n s su c d r).details = d := rfl

@[simp] theorem vr_sub_results (i n s su : String) (c : Nat) (d : Option (List Row))
    (r : List VResult) : (VResult.mk i n s su c d r).sub_results = r := rfl

/-- The `details = pd.DataFrame(rows) if rows else None` idiom, read back
through `getD []`. -/
theorem someIfNonempty_getD {α : Type} [DecidableEq α] (rows : List α) :
    (if rows ≠ [] then some rows else none).getD [] = rows := by
  by_cases h : rows ≠ []
  · rw [if_pos h]
    rfl
  · rw [if_neg h]
    push_neg at h
    simp [h]

/-- `List.isPrefixOf` on characters is the existence of a completing
suffix. -/
theorem isPrefixOf_iff_append (l₁ : List Char) :
    ∀ l₂ : List Char, l₁.isPrefixOf l₂ = true ↔ ∃ t, l₁ ++ t = l₂ := by
  induction l₁ with
  | nil => intro l₂; simp [ List.isPrefixOf]
  | cons a as ih =>
    intro l₂
    cases l₂ with
    | nil =>
      simp [ List.isPrefixOf]
    | cons b bs =>
      simp only [ List.isPrefixOf, Bool.and_eq_true, beq_iff_eq, ih]
      constructor
      · rintro ⟨rfl, t, rfl⟩
        exact ⟨t, rfl⟩
      · rintro ⟨t, ht⟩
        injection ht with h1 h2
        exact ⟨h1, t, h2⟩

/-- `containsSub` is Python `in`: some decomposition `pre ++ n ++ suf`. -/
theorem containsSub_iff (n : List Char) :
    ∀ h : List Char, containsSub n h = true ↔ ∃ pre suf, h = pre ++ n ++ suf := by
  intro h
  induction h with
  | nil =>
    simp only [containsSub, List.isEmpty_iff]
    constructor
    · intro hn
      exact ⟨[], [], by simp [hn]⟩
    · rintro ⟨pre, suf, heq⟩
      rcases List.append_eq_nil.1 heq.symm with ⟨h1, -⟩
      exact (List.append_eq_nil.1 h1).2
  | cons c t ih =>
    simp only [containsSub, Bool.or_eq_true, ih, isPrefixOf_iff_append]
    constructor
    · rintro (⟨suf, hsuf⟩ | ⟨pre, suf, rfl⟩)
      · exact ⟨[], suf, by simp [hsuf.symm]⟩
      · exact ⟨c :: pre, suf, rfl⟩
    · rintro ⟨pre, suf, heq⟩
      cases pre with
      | nil =>
        left
        exact ⟨suf, by simpa using heq.symm⟩
      | cons d ds =>
        right
        injection heq with h1 h2
        subst h1
        exact ⟨ds, suf, h2⟩

/-- `wbSearch` is `re.search` of `\b kw \b` (for a non-empty keyword):
some occurrence of `kw` with a word boundary on both sides, where the
character to the left of the text is `prev`. -/
theorem wbSearch_iff (kw : List Char) (hkw : kw ≠ []) :
    ∀ (h : List Char) (prev : Option Char),
      wbSearch kw prev h = true ↔
        ∃ pre suf, h = pre ++ kw ++ suf ∧
          atBoundary (leftCtx prev pre) kw.head? = true ∧
          atBoundary kw.getLast? suf.head? = true := by
  intro h
  induction h with
  | nil =>
    intro prev
    constructor
    · intro hw
      exfalso
      cases kw with
      | nil => exact hkw rfl
      | cons a as => simp [wbSearch, wbMatchHere, List.isPrefixOf] at hw
    · rintro ⟨pre, suf, heq, -, -⟩
      exfalso
      cases kw with
      | nil => exact hkw rfl
      | cons a as =>
        have := congrArg List.length heq
        simp [List.length_append] at this
        omega
  | cons c t ih =>
    intro prev
    have hsp : wbSearch kw prev (c :: t) =
        (wbMatchHere prev kw (c :: t) || wbSearch kw (some c) t) := rfl
    rw [hsp, Bool.or_eq_true]
    constructor
    · rintro (hm | hrec)
      · simp only [wbMatchHere, Bool.and_eq_true, isPrefixOf_iff_append] at hm
        obtain ⟨⟨⟨suf, hsuf⟩, hb1⟩, hb2⟩ := hm
        refine ⟨[], suf, by simp [hsuf.symm], by simpa [leftCtx] using hb1, ?_⟩
        have hdrop : (c :: t).drop kw.length = suf := by
          rw [← hsuf]
          exact List.drop_left kw suf
        rwa [hdrop] at hb2
      · obtain ⟨pre, suf, heq, hb1, hb2⟩ := (ih (some c)).1 hrec
        exact ⟨c :: pre, suf, by simp [heq], by simpa [leftCtx] using hb1, hb2⟩
    · rintro ⟨pre, suf, heq, hb1, hb2⟩
      cases pre with
      | nil =>
        left
        simp only [wbMatchHere, Bool.and_eq_true, isPrefixOf_iff_append]
        have heq' : c :: t = kw ++ suf := by simpa using heq
        refine ⟨⟨⟨suf, heq'.symm⟩, by simpa [leftCtx] using hb1⟩, ?_⟩
        have hdrop : (c :: t).drop kw.length = suf := by
          rw [heq']
          exact List.drop_left kw suf
        rwa [hdrop]
      | cons d ds =>
        right
        injection heq with h1 h2
        subst h1
        exact (ih (some c)).2 ⟨ds, suf, h2, by simpa [leftCtx] using hb1, hb2⟩

/-- Every whole-word keyword is non-empty. -/
theorem whole_word_keywords_nonempty :
    ∀ s ∈ WHOLE_WORD_KEYWORDS, s.data ≠ [] := by decide

/-! ## Claim C2 — `_resolve_priority` -/

/-- C2: on a list of matched categories (members of the fixed category
inventory, i.e. of the priority list), `_resolve_priority` returns the
earliest member of `MICROMOBILITY_PRIORITY` present in the input, and
returns `None` exactly when the input is empty. -/
theorem resolve_priority_earliest_and_total (ms : List String)
    (h : ∀ m ∈ ms, m ∈ MICROMOBILITY_PRIORITY) :
    (resolvePriority ms = none ↔ ms = []) ∧
    (∀ c, resolvePriority ms = some c →
      c ∈ ms ∧ c ∈ MICROMOBILITY_PRIORITY ∧
        ∃ i, MICROMOBILITY_PRIORITY.get? i = some c ∧
          ∀ j, j < i → ∀ d, MICROMOBILITY_PRIORITY.get? j = some d → d ∉ ms) := by
  constructor
  · constructor
    · intro hn
      cases ms with
      | nil => rfl
      | cons m t =>
        have hm : m ∈ MICROMOBILITY_PRIORITY := h m (List.mem_cons_self m t)
        have := (find_none_iff _ _).1 hn m hm
        simp at this
    · intro he
      subst he
      simp [resolvePriority, find_none_iff]
  · intro c hc
    obtain ⟨hmem, hsat⟩ := find_mem_sat _ _ _ hc
    obtain ⟨i, hget, hbefore⟩ := find_first _ _ _ hc
    have hcms : c ∈ ms := by simpa using hsat
    refine ⟨hcms, hmem, i, hget, ?_⟩
    intro j hj d hd hdm
    have := hbefore j hj d hd
    simp [hdm] at this

/-- C2 witness: a concrete two-category match set. -/
theorem resolve_priority_earliest_and_total_witness :
    (∀ m ∈ ["E-bike", "E-scooter"], m ∈ MICROMOBILITY_PRIORITY) ∧
    ((resolvePriority ["E-bike", "E-scooter"] = none ↔
        (["E-bike", "E-scooter"] : List String) = []) ∧
     (∀ c, resolvePriority ["E-bike", "E-scooter"] = some c →
        c ∈ ["E-bike", "E-scooter"] ∧ c ∈ MICROMOBILITY_PRIORITY ∧
          ∃ i, MICROMOBILITY_PRIORITY.get? i = some c ∧
            ∀ j, j < i → ∀ d, MICROMOBILITY_PRIORITY.get? j = some d →
              d ∉ ["E-bike", "E-scooter"])) :=
  ⟨by decide, resolve_priority_earliest_and_total ["E-bike", "E-scooter"] (by decide)⟩

/-! ## Claim C5 — `_find_keyword_matches` -/

/-- One keyword hit, characterised: whole-word keywords (after lowering)
need a `\b`-delimited occurrence of their lowercase form in the lowercase
text, the rest a plain substring occurrence. -/
theorem kwHit_iff (tl : List Char) (kw : String) :
    kwHit tl kw = true ↔
      if WHOLE_WORD_KEYWORDS.contains (pyLowerStr kw) then
        ∃ pre suf, tl = pre ++ pyLower kw.data ++ suf ∧
          atBoundary (leftCtx none pre) (pyLower kw.data).head? = true ∧
          atBoundary (pyLower kw.data).getLast? suf.head? = true
      else ∃ pre suf, tl = pre ++ pyLower kw.data ++ suf := by
  simp only [kwHit]
  have hmk : String.mk (pyLower kw.data) = pyLowerStr kw := rfl
  rw [hmk]
  by_cases hww : WHOLE_WORD_KEYWORDS.contains (pyLowerStr kw) = true
  · rw [if_pos hww, if_pos hww]
    have hmem : pyLowerStr kw ∈ WHOLE_WORD_KEYWORDS := by
      simpa using hww
    have hne : pyLower kw.data ≠ [] := whole_word_keywords_nonempty _ hmem
    exact wbSearch_iff _ hne tl none
  · rw [if_neg hww, if_neg hww]
    exact containsSub_iff _ tl

/-- C5: the keyword matcher depends only on the lowercased text
(case-insensitivity); with distinct dictionary keys each category occurs at
most once (the per-category scan stops at the first hit); a category is in
the result exactly when one of its keywords occurs — `\b`-delimited for
whole-word keywords, as a substring otherwise; and with the non-empty
keywords of the real dictionaries an empty text matches nothing. -/
theorem find_keyword_matches_spec :
    (∀ (t₁ t₂ : List Char) (dict : List (String × List String)),
        pyLower t₁ = pyLower t₂ →
        findKeywordMatches t₁ dict = findKeywordMatches t₂ dict) ∧
    (∀ (text : List Char) (dict : List (String × List String)),
        (dict.map Prod.fst).Nodup → (findKeywordMatches text dict).Nodup) ∧
    (∀ (text : List Char) (dict : List (String × List String)) (c : String),
        c ∈ findKeywordMatches text dict ↔
          ∃ kws, (c, kws) ∈ dict ∧ ∃ kw ∈ kws,
            if WHOLE_WORD_KEYWORDS.contains (pyLowerStr kw) then
              ∃ pre suf, pyLower text = pre ++ pyLower kw.data ++ suf ∧
                atBoundary (leftCtx none pre) (pyLower kw.data).head? = true ∧
                atBoundary (pyLower kw.data).getLast? suf.head? = true
            else ∃ pre suf, pyLower text = pre ++ pyLower kw.data ++ suf) ∧
    (∀ dict : List (String × List String),
        (∀ e ∈ dict, ∀ kw ∈ e.2, kw ≠ "") → findKeywordMatches [] dict = []) := by
  refine ⟨?_, ?_, ?_, ?_⟩
  · intro t₁ t₂ dict h
    simp only [findKeywordMatches]
    rw [h]
  · intro text dict hnd
    simp only [findKeywordMatches]
    exact hnd.sublist ((List.filter_sublist dict).map Prod.fst)
  · intro text dict c
    simp only [findKeywordMatches, List.mem_map, List.mem_filter, List.any_eq_true]
    constructor
    · rintro ⟨e, ⟨hed, kw, hkw, hhit⟩, rfl⟩
      exact ⟨e.2, hed, kw, hkw, (kwHit_iff _ _).1 hhit⟩
    · rintro ⟨kws, hmem, kw, hkw, hb⟩
      exact ⟨(c, kws), ⟨hmem, kw, hkw, (kwHit_iff _ _).2 hb⟩, rfl⟩
  · intro dict hk
    simp only [findKeywordMatches]
    have hfil : dict.filter (fun e => e.2.any (fun kw => kwHit (pyLower []) kw)) = [] := by
      rw [List.filter_eq_nil_iff]
      intro e he hany
      simp only [List.any_eq_true] at hany
      obtain ⟨kw, hkw, hhit⟩ := hany
      have hne : kw ≠ "" := hk e he kw hkw
      have hdne : kw.data ≠ [] := by
        intro hd
        apply hne
        cases kw with
        | mk d =>
          have hd' : d = [] := by simpa using hd
          rw [hd']
      have hlow : pyLower kw.data ≠ [] := by
        simpa [pyLower] using hdne
      have h0 : pyLower ([] : List Char) = [] := rfl
      rw [h0] at hhit
      have := (kwHit_iff [] kw).1 hhit
      by_cases hww : WHOLE_WORD_KEYWORDS.contains (pyLowerStr kw) = true
      · rw [if_pos hww] at this
        obtain ⟨pre, suf, heq, -, -⟩ := this
        have := congrArg List.length heq
        simp [List.length_append] at this
        exact hlow (List.length_eq_zero.1 (by omega))
      · rw [if_neg hww] at this
        obtain ⟨pre, suf, heq⟩ := this
        have := congrArg List.length heq
        simp [List.length_append] at this
        exact hlow (List.length_eq_zero.1 (by omega))
    rw [hfil]
    rfl

/-- C5 witness: the real keyword dictionary has distinct keys and no empty
keyword, so the matcher result is duplicate-free and empty text matches
nothing. -/
theorem find_keyword_matches_spec_witness :
    ((MICROMOBILITY_KEYWORDS.map Prod.fst).Nodup ∧
      (findKeywordMatches "en elcykel".data MICROMOBILITY_KEYWORDS).Nodup) ∧
    ((∀ e ∈ MICROMOBILITY_KEYWORDS, ∀ kw ∈ e.2, kw ≠ "") ∧
      findKeywordMatches [] MICROMOBILITY_KEYWORDS = []) :=
  ⟨⟨by decide,
    find_keyword_matches_spec.2.1 "en elcykel".data MICROMOBILITY_KEYWORDS (by decide)⟩,
   ⟨by decide,
    find_keyword_matches_spec.2.2.2 MICROMOBILITY_KEYWORDS (by decide)⟩⟩

/-! ## Claim C10 — check C3 with no cycling rows -/

/-- C10: when the persons table has no row of the cycling category, check
C3 short-circuits to a "pass" result with issue count 0 and no detail
table. -/
theorem check_c3_no_cykel_pass (o : List Crash) (pt : PTable)
    (h : pt.rows.filter isCykel = []) :
    checkC3 o pt =
      VResult.mk "C3" "Cykel crashes with only passengers (no driver)" "pass"
        "No Cykel entries in dataset" 0 none [] := by
  unfold checkC3
  rw [h]
  rfl

/-- C10 witness: a table with a single motor-vehicle person. -/
theorem check_c3_no_cykel_pass_witness :
    ([{ emptyPerson with categoryMain := some "Motorfordon" }].filter isCykel
        = []) ∧
    checkC3 [] ⟨DUPLICATE_DETECTION_COLS,
        [{ emptyPerson with categoryMain := some "Motorfordon" }]⟩ =
      VResult.mk "C3" "Cykel crashes with only passengers (no driver)" "pass"
        "No Cykel entries in dataset" 0 none [] :=
  ⟨by decide,
   check_c3_no_cykel_pass [] ⟨DUPLICATE_DETECTION_COLS,
     [{ emptyPerson with categoryMain := some "Motorfordon" }]⟩ (by decide)⟩

/-! ## Claim C8 — G6 with missing duplicate-detection columns -/

/-- C8: with any duplicate-detection column absent, G6 returns the "fail"
result with issue count 0 whose summary names the missing columns, and
`run_checks` still yields every check's result (G6 returns instead of
raising, so the runner's loop reaches all other checks). -/
theorem check_g6_missing_columns_fail (o : List Crash) (pt : PTable) (incl : Bool)
    (h : DUPLICATE_DETECTION_COLS.filter (fun c => !pt.cols.contains c) ≠ []) :
    checkG6 o pt =
      VResult.mk "G6" "Duplicate person detection" "fail"
        ("✗ Missing columns: " ++
          pyListRepr (DUPLICATE_DETECTION_COLS.filter (fun c => !pt.cols.contains c)))
        0 none [] ∧
    runChecks o pt incl none =
      [checkG1 o pt, checkG2 o pt, checkG3 o pt, checkG4 o pt, checkG5 o pt,
        checkG6 o pt] ++
        (if incl then [checkC1 o pt, checkC2 o pt, checkC3 o pt] else []) := by
  constructor
  · unfold checkG6
    rw [if_pos h]
  · unfold runChecks GENERIC_CHECKS CYCLING_CHECKS
    cases incl <;> simp

/-- C8 witness: a persons table whose only column is `Ålder`. -/
theorem check_g6_missing_columns_fail_witness :
    (DUPLICATE_DETECTION_COLS.filter
        (fun c => !(PTable.mk [COL_AGE] []).cols.contains c) ≠ []) ∧
    (checkG6 [] ⟨[COL_AGE], []⟩ =
      VResult.mk "G6" "Duplicate person detection" "fail"
        ("✗ Missing columns: " ++
          pyListRepr (DUPLICATE_DETECTION_COLS.filter
            (fun c => !(PTable.mk [COL_AGE] []).cols.contains c)))
        0 none [] ∧
    runChecks [] ⟨[COL_AGE], []⟩ false none =
      [checkG1 [] ⟨[COL_AGE], []⟩, checkG2 [] ⟨[COL_AGE], []⟩,
        checkG3 [] ⟨[COL_AGE], []⟩, checkG4 [] ⟨[COL_AGE], []⟩,
        checkG5 [] ⟨[COL_AGE], []⟩, checkG6 [] ⟨[COL_AGE], []⟩] ++
        (if false then [checkC1 [] ⟨[COL_AGE], []⟩, checkC2 [] ⟨[COL_AGE], []⟩,
          checkC3 [] ⟨[COL_AGE], []⟩] else [])) :=
  ⟨by decide, check_g6_missing_columns_fail [] ⟨[COL_AGE], []⟩ false (by decide)⟩

/-! ## Claim C9 — `run_checks` registry order and filtering -/

theorem checkG1_id (o : List Crash) (pt : PTable) : (checkG1 o pt).check_id = "G1" := rfl

theorem checkG2_id (o : List Crash) (pt : PTable) : (checkG2 o pt).check_id = "G2" := rfl

theorem checkG3_id (o : List Crash) (pt : PTable) : (checkG3 o pt).check_id = "G3" := rfl

theorem checkG4_id (o : List Crash) (pt : PTable) : (checkG4 o pt).check_id = "G4" := rfl

theorem checkG5_id (o : List Crash) (pt : PTable) : (checkG5 o pt).check_id = "G5" := rfl

theorem checkG6_id (o : List Crash) (pt : PTable) : (checkG6 o pt).check_id = "G6" := by
  simp only [checkG6]
  split <;> rfl

theorem checkC1_id (o : List Crash) (pt : PTable) : (checkC1 o pt).check_id = "C1" := rfl

theorem checkC2_id (o : List Crash) (pt : PTable) : (checkC2 o pt).check_id = "C2" := rfl

theorem checkC3_id (o : List Crash) (pt : PTable) : (checkC3 o pt).check_id = "C3" := by
  simp only [checkC3]
  split <;> rfl

/-- C9: `run_checks` runs G1-G6 always and C1-C3 exactly when requested,
in registry order; a check-id filter keeps exactly the results whose id is
listed, and unknown ids are silently without effect. -/
theorem run_checks_spec (o : List Crash) (pt : PTable) (incl : Bool)
    (ids : List String) :
    ((runChecks o pt incl none).map VResult.check_id =
      ["G1", "G2", "G3", "G4", "G5", "G6"] ++
        (if incl then ["C1", "C2", "C3"] else [])) ∧
    (runChecks o pt incl (some ids) =
      (runChecks o pt incl none).filter (fun r => ids.contains r.check_id)) ∧
    (∀ r ∈ runChecks o pt incl (some ids), r.check_id ∈ ids) := by
  refine ⟨?_, ?_, ?_⟩
  · unfold runChecks GENERIC_CHECKS CYCLING_CHECKS
    cases incl <;>
      simp [checkG1_id, checkG2_id, checkG3_id, checkG4_id, checkG5_id,
        checkG6_id, checkC1_id, checkC2_id, checkC3_id]
  · unfold runChecks
    simp
  · intro r hr
    unfold runChecks at hr
    rw [List.mem_filter] at hr
    simpa using hr.2

/-- C9 witness: a concrete runner call with one known and one unknown id
in the filter. -/
theorem run_checks_spec_witness :
    ((runChecks [] ⟨[], []⟩ true none).map VResult.check_id =
      ["G1", "G2", "G3", "G4", "G5", "G6"] ++
        (if true then ["C1", "C2", "C3"] else [])) ∧
    (runChecks [] ⟨[], []⟩ true (some ["G4", "ZZ"]) =
      (runChecks [] ⟨[], []⟩ true none).filter
        (fun r => ["G4", "ZZ"].contains r.check_id)) ∧
    (∀ r ∈ runChecks [] ⟨[], []⟩ true (some ["G4", "ZZ"]),
      r.check_id ∈ ["G4", "ZZ"]) :=
  run_checks_spec [] ⟨[], []⟩ true ["G4", "ZZ"]

/-! ## Claim C6 — G1 detail symmetry -/

/-- C6: G1's detail rows are exactly the sorted crashes-only ids followed
by the sorted persons-only ids, its issue count is the number of detail
rows, and it passes exactly when the two id sets coincide. -/
theorem check_g1_symmetry (olyckor : List Crash) (pt : PTable) :
    ∃ a b : List Nat,
      (checkG1 olyckor pt).details.getD [] =
        (a.map (fun cid => [(COL_CRASH_ID, PyVal.vNat cid),
            ("Found_in", PyVal.vStr "Olyckor only")]) ++
         b.map (fun cid => [(COL_CRASH_ID, PyVal.vNat cid),
            ("Found_in", PyVal.vStr "Personer only")])) ∧
      List.Pairwise (fun x y : Nat => x ≤ y) a ∧
      List.Pairwise (fun x y : Nat => x ≤ y) b ∧
      (∀ x : Nat, x ∈ a ↔ x ∈ olyckor.map (fun c => c.crashId) ∧
          x ∉ pt.rows.map (fun p => p.crashId)) ∧
      (∀ x : Nat, x ∈ b ↔ x ∈ pt.rows.map (fun p => p.crashId) ∧
          x ∉ olyckor.map (fun c => c.crashId)) ∧
      (checkG1 olyckor pt).issue_count =
        ((checkG1 olyckor pt).details.getD []).length ∧
      ((checkG1 olyckor pt).status = "pass" ↔
        ∀ x : Nat, x ∈ olyckor.map (fun c => c.crashId) ↔
          x ∈ pt.rows.map (fun p => p.crashId)) := by
  refine ⟨natSort (((olyckor.map (fun c => c.crashId)).pdUnique).filter
      (fun c => !((pt.rows.map (fun p => p.crashId)).pdUnique).contains c)),
    natSort (((pt.rows.map (fun p => p.crashId)).pdUnique).filter
      (fun c => !((olyckor.map (fun c => c.crashId)).pdUnique).contains c)),
    ?_, natSort_sorted _, natSort_sorted _, ?_, ?_, ?_, ?_⟩
  · simp only [checkG1, vr_details]
    exact someIfNonempty_getD _
  · intro x
    rw [mem_natSort, List.mem_filter]
    simp [mem_pdUnique]
  · intro x
    rw [mem_natSort, List.mem_filter]
    simp [mem_pdUnique]
  · simp only [checkG1, vr_details, vr_issue_count]
    rw [someIfNonempty_getD]
  · simp only [checkG1, vr_status]
    have hne : ("pass" : String) ≠ "warning" := by decide
    constructor
    · intro hp x
      by_contra hx
      rw [iff_iff_implies_and_implies, not_and_or] at hx
      have hrows : ¬ ((natSort (((olyckor.map (fun c => c.crashId)).pdUnique).filter
            (fun c => !((pt.rows.map (fun p => p.crashId)).pdUnique).contains c))).map
              (fun cid => [(COL_CRASH_ID, PyVal.vNat cid),
                ("Found_in", PyVal.vStr "Olyckor only")]) ++
          (natSort (((pt.rows.map (fun p => p.crashId)).pdUnique).filter
            (fun c => !((olyckor.map (fun c => c.crashId)).pdUnique).contains c))).map
              (fun cid => [(COL_CRASH_ID, PyVal.vNat cid),
                ("Found_in", PyVal.vStr "Personer only")])).length = 0 := by
        intro hlen
        rw [List.length_eq_zero, List.append_eq_nil, List.map_eq_nil_iff,
          List.map_eq_nil_iff] at hlen
        obtain ⟨ha, hb⟩ := hlen
        rcases hx with hx | hx
        · push_neg at hx
          obtain ⟨hxo, hxp⟩ := hx
          have : x ∈ natSort (((olyckor.map (fun c => c.crashId)).pdUnique).filter
              (fun c => !((pt.rows.map (fun p => p.crashId)).pdUnique).contains c)) := by
            rw [mem_natSort, List.mem_filter]
            simp [mem_pdUnique, hxo, hxp]
          rw [ha] at this
          simp at this
        · push_neg at hx
          obtain ⟨hxp, hxo⟩ := hx
          have : x ∈ natSort (((pt.rows.map (fun p => p.crashId)).pdUnique).filter
              (fun c => !((olyckor.map (fun c => c.crashId)).pdUnique).contains c)) := by
            rw [mem_natSort, List.mem_filter]
            simp [mem_pdUnique, hxp, hxo]
          rw [hb] at this
          simp at this
      rw [if_neg hrows] at hp
      exact hne hp.symm
    · intro hiff
      rw [if_pos]
      rw [List.length_eq_zero, List.append_eq_nil, List.map_eq_nil_iff, List.map_eq_nil_iff]
      constructor
      · rw [List.eq_nil_iff_forall_not_mem]
        intro x hx
        rw [mem_natSort, List.mem_filter] at hx
        have h1 : x ∈ olyckor.map (fun c => c.crashId) := by
          have := hx.1
          rwa [mem_pdUnique] at this
        have h2 : x ∉ pt.rows.map (fun p => p.crashId) := by
          have := hx.2
          simp [mem_pdUnique] at this
          simpa using this
        exact h2 ((hiff x).1 h1)
      · rw [List.eq_nil_iff_forall_not_mem]
        intro x hx
        rw [mem_natSort, List.mem_filter] at hx
        have h1 : x ∈ pt.rows.map (fun p => p.crashId) := by
          have := hx.1
          rwa [mem_pdUnique] at this
        have h2 : x ∉ olyckor.map (fun c => c.crashId) := by
          have := hx.2
          simp [mem_pdUnique] at this
          simpa using this
        exact h2 ((hiff x).2 h1)

/-! ## Claim C7 — G4 ordering -/

/-- C7: G4 examines only multi-person crashes; its detail list is the date
mismatches followed by the time mismatches; a time mismatch is reported
only when the crash's dates agree; and the time mismatches are ordered by
the spread `max - min` of the time buckets, descending. -/
theorem check_g4_ordering (olyckor : List Crash) (pt : PTable) :
    (checkG4 olyckor pt).details.getD [] = g4Rows pt.rows ∧
    (checkG4 olyckor pt).issue_count = (g4Rows pt.rows).length ∧
    g4Rows pt.rows = g4DateRows pt.rows ++ g4TimeRows pt.rows ∧
    (∀ cid : Nat, cid ∈ g4DateBadIds pt.rows ∨ cid ∈ g4TimeBadIds pt.rows →
      2 ≤ (pt.rows.filter (fun r => r.crashId == cid)).length) ∧
    (∀ r ∈ g4DateRows pt.rows,
      r.get? 1 = some ("Reason", PyVal.vStr "Date mismatch")) ∧
    (∀ r ∈ g4TimeRows pt.rows,
      r.get? 1 = some ("Reason", PyVal.vStr "Time mismatch")) ∧
    (∀ cid ∈ g4TimeBadIds pt.rows, g4DateBad pt.rows cid = false ∧
      1 < nuniqueInt ((crashSlice pt.rows cid).map (fun r => r.time))) ∧
    List.Pairwise (fun a b : G4TimeRec => b.diff ≤ a.diff)
      (g4TimeRecsSorted pt.rows) := by
  refine ⟨?_, ?_, rfl, ?_, ?_, ?_, ?_, ?_⟩
  · simp only [checkG4, vr_details]
    exact someIfNonempty_getD _
  · simp only [checkG4, vr_issue_count]
  · intro cid h
    have hm : cid ∈ multiPersonCrashIds pt.rows := by
      rcases h with h | h
      · simp only [g4DateBadIds, List.mem_filter] at h
        exact h.1
      · simp only [g4TimeBadIds, List.mem_filter] at h
        exact h.1
    rw [multiPersonCrashIds, mem_natSort, List.mem_filter] at hm
    have := hm.2
    simp only [decide_eq_true_eq] at this
    omega
  · intro r hr
    rw [g4DateRows, List.mem_map] at hr
    obtain ⟨cid, -, rfl⟩ := hr
    rfl
  · intro r hr
    rw [g4TimeRows, List.mem_map] at hr
    obtain ⟨rec, -, rfl⟩ := hr
    rfl
  · intro cid h
    simp only [g4TimeBadIds, List.mem_filter, Bool.and_eq_true] at h
    obtain ⟨hmulti, hn, hnc⟩ := h
    have hnotbad : cid ∉ g4DateBadIds pt.rows := by
      simpa using hnc
    refine ⟨?_, by simpa using hn⟩
    by_contra hbad
    apply hnotbad
    rw [g4DateBadIds, List.mem_filter]
    exact ⟨hmulti, by simpa using hbad⟩
  · unfold g4TimeRecsSorted
    refine List.Pairwise.imp ?_ (List.sorted_mergeSort ?_ ?_ (g4TimeRecs pt.rows))
    · intro a b hab
      simpa using hab
    · intro a b c hab hbc
      simp only [decide_eq_true_eq] at *
      omega
    · intro a b
      simp only [Bool.or_eq_true, decide_eq_true_eq]
      omega

/-! ## Claim C4 — Conflict-Partner annotation (modelled from the spec) -/

/-- C4 counterexample: on the claim's own example crash, whose combined
categories are `[Cykel, Cykel, Motorfordon]`, the claim's algorithm
(collect the crash's categories, remove exactly one instance of "Cykel",
de-duplicate and join) yields "Cykel, Motorfordon" for both cycling
persons — not the "Motorfordon" the claim's example asserts. -/
theorem conflict_partner_example_false :
    addConflictPartner
      [{ emptyPerson with crashId := 5, categoryMain := some "Cykel" },
       { emptyPerson with crashId := 5, categoryMain := some "Cykel" },
       { emptyPerson with crashId := 5, categoryMain := some "Motorfordon" }] =
      ["Cykel, Motorfordon", "Cykel, Motorfordon", "N/A"] ∧
    ("Cykel, Motorfordon" : String) ≠ "Motorfordon" := by
  constructor
  · rfl
  · decide

/-- C4 (amended): every person row is annotated; a cycling-category person
gets the comma-joined, order-preserving de-duplication of the crash's
combined-category values after removing exactly one "Cykel" instance
("Single" when nothing remains), and a non-cycling person gets "N/A".  (In
the example crash `[Cykel, Cykel, Motorfordon]` both cycling persons
therefore get "Cykel, Motorfordon".) -/
theorem conflict_partner_spec (rows : List Person) (i : Nat) (p : Person)
    (hp : rows.get? i = some p) :
    ∃ v, (addConflictPartner rows).get? i = some v ∧
      (p.categoryMain = some "Cykel" →
        v = (if ((rows.filter (fun q => q.crashId == p.crashId)).filterMap
              (fun q => q.categoryMain)).erase "Cykel" = [] then "Single"
            else String.intercalate ", "
              ((((rows.filter (fun q => q.crashId == p.crashId)).filterMap
                (fun q => q.categoryMain)).erase "Cykel").pdUnique))) ∧
      (p.categoryMain ≠ some "Cykel" → v = "N/A") := by
  refine ⟨conflictPartnerOf rows p, ?_, ?_, ?_⟩
  · rw [addConflictPartner, List.get?_map, hp]
    rfl
  · intro hc
    rw [conflictPartnerOf, if_pos (by simp [isCykel, CYKEL_CATEGORY, hc])]
    rfl
  · intro hc
    rw [conflictPartnerOf, if_neg (by simp [isCykel, CYKEL_CATEGORY, hc])]

/-- C4 witness: a crash with a single cycling person is annotated
"Single". -/
theorem conflict_partner_spec_witness :
    ([soloCykelPerson].get? 0 = some soloCykelPerson) ∧
    ∃ v, (addConflictPartner [soloCykelPerson]).get? 0 = some v ∧
      (soloCykelPerson.categoryMain = some "Cykel" →
        v = (if (([soloCykelPerson].filter
              (fun q => q.crashId == soloCykelPerson.crashId)).filterMap
              (fun q => q.categoryMain)).erase "Cykel" = [] then "Single"
            else String.intercalate ", "
              (((([soloCykelPerson].filter
                (fun q => q.crashId == soloCykelPerson.crashId)).filterMap
                (fun q => q.categoryMain)).erase "Cykel").pdUnique))) ∧
      (soloCykelPerson.categoryMain ≠ some "Cykel" → v = "N/A") :=
  ⟨rfl, conflict_partner_spec [soloCykelPerson] 0 soloCykelPerson rfl⟩

/-! ## Claim C1 — classification is exactly the Cykel rows -/

theorem resolvePriority_mem (ms : List String) (c : String)
    (h : resolvePriority ms = some c) : c ∈ MICROMOBILITY_PRIORITY :=
  (find_mem_sat _ _ _ h).1

theorem tryTrafikelement_mem (textP : String) (te : Option String)
    (dict : List (String × List String)) (c : String)
    (h : tryTrafikelementDisambiguation textP te dict = some c) :
    c ∈ MICROMOBILITY_PRIORITY := by
  unfold tryTrafikelementDisambiguation at h
  split at h
  · simp at h
  · split at h
    · simp at h
    · split at h
      · simp at h
      · split at h
        · exact resolvePriority_mem _ _ h
        · simp at h

theorem lookupUgMap_mem (s m : String) (h : lookupUgMap s = some m) :
    m ∈ MICROMOBILITY_PRIORITY := by
  have hval : ∀ e ∈ UNDERGRUPP_MAP, e.2 ∈ MICROMOBILITY_PRIORITY := by decide
  unfold lookupUgMap at h
  cases hf : UNDERGRUPP_MAP.find? (fun e => e.1 == s) with
  | none => rw [hf] at h; simp at h
  | some e =>
    rw [hf] at h
    simp at h
    rw [← h]
    exact hval e (find_mem_sat _ _ _ hf).1

theorem step1Phase_priority (p : Person) (isSolo : Bool)
    (otherUgP : List (Option String)) (st : CState)
    (hst : ∀ r, st.result = some r → r ∈ MICROMOBILITY_PRIORITY) :
    ∀ r, (step1Phase p isSolo otherUgP st).result = some r →
      r ∈ MICROMOBILITY_PRIORITY := by
  intro r h
  unfold step1Phase at h
  split at h
  · exact hst r h
  · split at h
    · split at h
      · split at h
        · exact resolvePriority_mem _ _ h
        · split at h
          · next g hg =>
              have h' : some g = some r := h
              cases h'
              exact tryTrafikelement_mem _ _ _ _ hg
          · split at h
            · exact resolvePriority_mem _ _ h
            · exact hst r h
      · exact hst r h
    · exact hst r h

theorem step2Phase_priority (p : Person) (isSolo : Bool) (st : CState)
    (hst : ∀ r, st.result = some r → r ∈ MICROMOBILITY_PRIORITY) :
    ∀ r, (step2Phase p isSolo st).result = some r →
      r ∈ MICROMOBILITY_PRIORITY := by
  intro r h
  unfold step2Phase at h
  split at h
  · exact hst r h
  · split at h
    · split at h
      · split at h
        · exact resolvePriority_mem _ _ h
        · split at h
          · split at h
            · exact resolvePriority_mem _ _ h
            · exact resolvePriority_mem _ _ h
          · exact hst r h
      · exact hst r h
    · exact hst r h

theorem step3Phase_priority (p : Person) (st : CState)
    (hst : ∀ r, st.result = some r → r ∈ MICROMOBILITY_PRIORITY) :
    ∀ r, (step3Phase p st).result = some r → r ∈ MICROMOBILITY_PRIORITY := by
  intro r h
  unfold step3Phase at h
  split at h
  · split at h
    · next m hm =>
      split at h
      · have h' : some m = some r := h
        cases h'
        exact lookupUgMap_mem _ _ hm
      · exact hst r h
    · exact hst r h
  · exact hst r h

theorem finalize_result (p : Person) (st : CState) :
    (finalizeConfidence p st).result = st.result := by
  unfold finalizeConfidence
  split
  · split <;> rfl
  · rfl

theorem finalize_step (p : Person) (st : CState) :
    (finalizeConfidence p st).step = st.step := by
  unfold finalizeConfidence
  split
  · split <;> rfl
  · rfl

theorem finalize_keep (p : Person) (st : CState) (h : st.confidence ≠ "") :
    finalizeConfidence p st = st := by
  unfold finalizeConfidence
  rw [if_neg h]

theorem step3_keep (p : Person) (st : CState) (h : st.result ≠ none) :
    step3Phase p st = st := by
  unfold step3Phase
  rw [if_neg h]

theorem step4_keep (st : CState) (h : st.result ≠ none) : step4Phase st = st := by
  unfold step4Phase
  rw [if_neg h]

/-- The pipeline always produces a result, and it is one of the five
priority categories. -/
theorem classifyPerson_result (p : Person) (isSolo : Bool)
    (otherUgP : List (Option String)) :
    ∃ r, (classifyPerson p isSolo otherUgP).result = some r ∧
      r ∈ MICROMOBILITY_PRIORITY := by
  have h0 : ∀ r, (CState.init).result = some r → r ∈ MICROMOBILITY_PRIORITY := by
    intro r h
    simp [CState.init] at h
  have h3 := step3Phase_priority p
    (step2Phase p isSolo (step1Phase p isSolo otherUgP CState.init))
    (step2Phase_priority p isSolo _ (step1Phase_priority p isSolo otherUgP _ h0))
  unfold classifyPerson
  rw [finalize_result]
  cases hst3 : (step3Phase p (step2Phase p isSolo
      (step1Phase p isSolo otherUgP CState.init))).result with
  | none =>
    refine ⟨"Conventional bicycle", ?_, by decide⟩
    unfold step4Phase
    rw [if_pos hst3]
  | some r =>
    refine ⟨r, ?_, h3 r hst3⟩
    rw [step4_keep _ (by rw [hst3]; simp)]
    exact hst3

/-- C1: after `classify_micromobility`, a row's `Micromobility_type`
differs from "N/A" exactly when the row's combined category is "Cykel";
every Cykel row receives one of the five pipeline categories, with Step 4
assigning "Conventional bicycle" at "default" confidence whenever Steps
1-3 produced none; and every non-Cykel row keeps the untouched
`"N/A"` / `""` / `""` / `[]` columns. -/
theorem classify_na_iff_cykel (rows : List Person) (i : Nat) (p : Person)
    (hp : rows.get? i = some p) :
    ∃ out : ClassifiedRow, (classifyTable rows).get? i = some out ∧
      (out.mmType ≠ "N/A" ↔ p.categoryMain = some CYKEL_CATEGORY) ∧
      (p.categoryMain = some CYKEL_CATEGORY →
        out.mmType ∈ MICROMOBILITY_PRIORITY) ∧
      (p.categoryMain = some CYKEL_CATEGORY →
        (step3Phase p (step2Phase p (cykelCount rows p.crashId == 1)
          (step1Phase p (cykelCount rows p.crashId == 1) (otherUgPOf rows i p)
            CState.init))).result = none →
        out.mmType = "Conventional bicycle" ∧ out.confidence = "default" ∧
          out.stepName = "Step 4 (default)") ∧
      (p.categoryMain ≠ some CYKEL_CATEGORY →
        out = ⟨"N/A", "", "", []⟩) := by
  have hna : ("N/A" : String) ∉ MICROMOBILITY_PRIORITY := by decide
  have hget : (classifyTable rows).get? i =
      some (if isCykel p then
        (fun st => (⟨st.result.getD "N/A", st.confidence, st.step,
          st.allMatches⟩ : ClassifiedRow))
          (classifyPerson p (cykelCount rows p.crashId == 1) (otherUgPOf rows i p))
        else ⟨"N/A", "", "", []⟩) := by
    rw [classifyTable, List.get?_map, List.enum_get?, hp]
    rfl
  by_cases hc : p.categoryMain = some CYKEL_CATEGORY
  · have hcy : isCykel p = true := by simp [isCykel, hc]
    obtain ⟨r, hr, hrp⟩ := classifyPerson_result p
      (cykelCount rows p.crashId == 1) (otherUgPOf rows i p)
    refine ⟨_, hget, ?_, ?_, ?_, ?_⟩
    · rw [if_pos hcy]
      simp only [hr]
      constructor
      · intro _; exact hc
      · intro _ hEq
        exact hna (hEq ▸ hrp)
    · intro _
      rw [if_pos hcy]
      simpa [hr] using hrp
    · intro _ hst3
      rw [if_pos hcy]
      have h4 : step4Phase (step3Phase p (step2Phase p
          (cykelCount rows p.crashId == 1)
          (step1Phase p (cykelCount rows p.crashId == 1) (otherUgPOf rows i p)
            CState.init))) =
          { step3Phase p (step2Phase p (cykelCount rows p.crashId == 1)
              (step1Phase p (cykelCount rows p.crashId == 1)
                (otherUgPOf rows i p) CState.init)) with
            result := some "Conventional bicycle", step := "Step 4 (default)",
            confidence := "default" } := by
        unfold step4Phase
        rw [if_pos hst3]
      have hfin : classifyPerson p (cykelCount rows p.crashId == 1)
          (otherUgPOf rows i p) =
          { step3Phase p (step2Phase p (cykelCount rows p.crashId == 1)
              (step1Phase p (cykelCount rows p.crashId == 1)
                (otherUgPOf rows i p) CState.init)) with
            result := some "Conventional bicycle", step := "Step 4 (default)",
            confidence := "default" } := by
        unfold classifyPerson
        rw [h4]
        refine finalize_keep _ _ ?_
        exact (by decide : ("default" : String) ≠ "")
      rw [hfin]
      exact ⟨rfl, rfl, rfl⟩
    · intro hnc
      exact absurd hc hnc
  · have hcy : isCykel p = false := by
      simp [isCykel]
      intro hEq
      exact absurd hEq hc
    refine ⟨_, hget, ?_, ?_, ?_, ?_⟩
    · rw [if_neg (by rw [hcy]; simp)]
      simp [hc]
    · intro hcc
      exact absurd hcc hc
    · intro hcc
      exact absurd hcc hc
    · intro _
      rw [if_neg (by rw [hcy]; simp)]

/-- C1 witness: a one-row table with a lone Cykel person (classified
"Conventional bicycle" by Step 4) next to nothing else. -/
theorem classify_na_iff_cykel_witness :
    ([soloCykelPerson].get? 0 = some soloCykelPerson) ∧
    ∃ out : ClassifiedRow, (classifyTable [soloCykelPerson]).get? 0 = some out ∧
      (out.mmType ≠ "N/A" ↔ soloCykelPerson.categoryMain = some CYKEL_CATEGORY) ∧
      (soloCykelPerson.categoryMain = some CYKEL_CATEGORY →
        out.mmType ∈ MICROMOBILITY_PRIORITY) ∧
      (soloCykelPerson.categoryMain = some CYKEL_CATEGORY →
        (step3Phase soloCykelPerson (step2Phase soloCykelPerson
          (cykelCount [soloCykelPerson] soloCykelPerson.crashId == 1)
          (step1Phase soloCykelPerson
            (cykelCount [soloCykelPerson] soloCykelPerson.crashId == 1)
            (otherUgPOf [soloCykelPerson] 0 soloCykelPerson)
            CState.init))).result = none →
        out.mmType = "Conventional bicycle" ∧ out.confidence = "default" ∧
          out.stepName = "Step 4 (default)") ∧
      (soloCykelPerson.categoryMain ≠ some CYKEL_CATEGORY →
        out = ⟨"N/A", "", "", []⟩) :=
  ⟨rfl, classify_na_iff_cykel [soloCykelPerson] 0 soloCykelPerson rfl⟩

/-! ## Claim C3 — Step 2 guard behaviour -/

/-- A blank (but present) collision-partner value excludes nothing: no
exclusion table entry contains the empty string. -/
theorem exclusion_blank (ms : List String) (k : String)
    (hk : pyStrip k.data = []) :
    applyConflictPartnerExclusion ms (some k) = ms := by
  have hks : stripStr k = "" := by
    unfold stripStr
    rw [hk]
  have hempty : (CONFLICT_PARTNER_EXCLUSIONS.filter (fun e =>
      e.2.contains "" && ms.contains e.1)) = [] := by
    rw [List.filter_eq_nil_iff]
    intro e he
    have hno : ∀ e ∈ CONFLICT_PARTNER_EXCLUSIONS, e.2.contains "" = false := by
      decide
    have hne : "" ∉ e.2 := by simpa using hno e he
    simp [hne]
  show (if ms = [] then ms
    else
      if ((CONFLICT_PARTNER_EXCLUSIONS.filter (fun e =>
            e.2.contains (stripStr k) && ms.contains e.1)).map (fun e => e.1)) ≠ [] then
        ms.filter (fun m =>
          !(((CONFLICT_PARTNER_EXCLUSIONS.filter (fun e =>
            e.2.contains (stripStr k) && ms.contains e.1)).map (fun e => e.1)).contains m))
      else ms) = ms
  rw [hks, hempty]
  simp

/-- `step2Phase` at a present `(S)` narrative, unfolded. -/
theorem step2Phase_some (p : Person) (isSolo : Bool) (st : CState)
    (textS : String) (hS : p.eventS = some textS) :
    step2Phase p isSolo st =
      (if pyStrip textS.data ≠ [] ∧ st.result = none then
        if findKeywordMatches textS.data MICROMOBILITY_KEYWORDS ≠ [] then
          if isSolo then
            { st with
              result := resolvePriority
                (findKeywordMatches textS.data MICROMOBILITY_KEYWORDS),
              allMatches := findKeywordMatches textS.data MICROMOBILITY_KEYWORDS,
              step := "Step 2 (S, solo)" }
          else
            if applyConflictPartnerExclusion
                (findKeywordMatches textS.data MICROMOBILITY_KEYWORDS)
                p.konfliktUg ≠ [] then
              if hasText p.konfliktUg then
                { st with
                  result := resolvePriority (applyConflictPartnerExclusion
                    (findKeywordMatches textS.data MICROMOBILITY_KEYWORDS)
                    p.konfliktUg),
                  allMatches := findKeywordMatches textS.data MICROMOBILITY_KEYWORDS,
                  step := "Step 2 (S, Guard B: I Konflikt med)" }
              else
                { st with
                  result := resolvePriority (applyConflictPartnerExclusion
                    (findKeywordMatches textS.data MICROMOBILITY_KEYWORDS)
                    p.konfliktUg),
                  allMatches := findKeywordMatches textS.data MICROMOBILITY_KEYWORDS,
                  step := "Step 2 (S, Guard C: per-person assumption)",
                  confidence := "medium" }
            else st
        else st
      else st) := by
  unfold step2Phase
  rw [hS]

/-- C3: for a Cykel person of a multi-cyclist crash for whom Step 1
produced no result and whose hospital narrative yields keyword matches —
with a blank or missing collision-partner field the match set is accepted
via the Priority Resolver at exactly "medium" confidence (Guard C); with a
populated field the conflict-partner exclusion is applied and the person
is classified (Guard B) only when it leaves a non-empty set; when
exclusion empties the set, Step 2 produces no result. -/
theorem step2_hospital_spec (p : Person) (otherUgP : List (Option String))
    (textS : String)
    (hS : p.eventS = some textS)
    (hstrip : pyStrip textS.data ≠ [])
    (hstep1 : (step1Phase p false otherUgP CState.init).result = none)
    (hms : findKeywordMatches textS.data MICROMOBILITY_KEYWORDS ≠ []) :
    ((p.konfliktUg = none ∨ ∃ k, p.konfliktUg = some k ∧ pyStrip k.data = []) →
      ∀ c, resolvePriority (findKeywordMatches textS.data MICROMOBILITY_KEYWORDS) =
          some c →
        (classifyPerson p false otherUgP).result = some c ∧
        (classifyPerson p false otherUgP).confidence = "medium" ∧
        (classifyPerson p false otherUgP).step =
          "Step 2 (S, Guard C: per-person assumption)") ∧
    (∀ k, p.konfliktUg = some k → pyStrip k.data ≠ [] →
      (applyConflictPartnerExclusion
          (findKeywordMatches textS.data MICROMOBILITY_KEYWORDS) (some k) ≠ [] →
        ∀ c, resolvePriority (applyConflictPartnerExclusion
            (findKeywordMatches textS.data MICROMOBILITY_KEYWORDS) (some k)) =
            some c →
          (classifyPerson p false otherUgP).result = some c ∧
          (classifyPerson p false otherUgP).step =
            "Step 2 (S, Guard B: I Konflikt med)") ∧
      (applyConflictPartnerExclusion
          (findKeywordMatches textS.data MICROMOBILITY_KEYWORDS) (some k) = [] →
        step2Phase p false (step1Phase p false otherUgP CState.init) =
          step1Phase p false otherUgP CState.init)) := by
  constructor
  · intro hkblank c hres
    have hexcl : applyConflictPartnerExclusion
        (findKeywordMatches textS.data MICROMOBILITY_KEYWORDS) p.konfliktUg =
        findKeywordMatches textS.data MICROMOBILITY_KEYWORDS := by
      rcases hkblank with hnone | ⟨k, hk, hkb⟩
      · rw [hnone]
        rfl
      · rw [hk]
        exact exclusion_blank _ _ hkb
    have hht : hasText p.konfliktUg = false := by
      rcases hkblank with hnone | ⟨k, hk, hkb⟩
      · rw [hnone]
        rfl
      · rw [hk]
        unfold hasText
        simp [hkb]
    have h2 : step2Phase p false (step1Phase p false otherUgP CState.init) =
        { step1Phase p false otherUgP CState.init with
          result := some c,
          allMatches := findKeywordMatches textS.data MICROMOBILITY_KEYWORDS,
          step := "Step 2 (S, Guard C: per-person assumption)",
          confidence := "medium" } := by
      rw [step2Phase_some p false _ textS hS]
      rw [if_pos ⟨hstrip, hstep1⟩]
      rw [if_pos hms]
      rw [if_neg (by decide : ¬ (false : Bool) = true)]
      rw [hexcl, hht]
      rw [if_pos hms]
      rw [if_neg (by decide : ¬ (false : Bool) = true)]
      rw [hres]
    unfold classifyPerson
    rw [h2]
    rw [step3_keep _ _ (by simp)]
    rw [step4_keep _ (by simp)]
    rw [finalize_keep _ _ (by exact (by decide : ("medium" : String) ≠ ""))]
    exact ⟨rfl, rfl, rfl⟩
  · intro k hk hkb
    constructor
    · intro hfne c hres
      have hht : hasText p.konfliktUg = true := by
        rw [hk]
        unfold hasText
        simp [hkb]
      have h2 : step2Phase p false (step1Phase p false otherUgP CState.init) =
          { step1Phase p false otherUgP CState.init with
            result := some c,
            allMatches := findKeywordMatches textS.data MICROMOBILITY_KEYWORDS,
            step := "Step 2 (S, Guard B: I Konflikt med)" } := by
        rw [step2Phase_some p false _ textS hS]
        rw [if_pos ⟨hstrip, hstep1⟩]
        rw [if_pos hms]
        rw [if_neg (by decide : ¬ (false : Bool) = true)]
        rw [hk]
        rw [if_pos hfne]
        rw [show hasText (some k) = true from by unfold hasText; simp [hkb]]
        rw [if_pos rfl]
        rw [hres]
      unfold classifyPerson
      rw [h2]
      rw [step3_keep _ _ (by simp)]
      rw [step4_keep _ (by simp)]
      rw [finalize_result, finalize_step]
      exact ⟨rfl, rfl⟩
    · intro hfe
      rw [step2Phase_some p false _ textS hS]
      rw [if_pos ⟨hstrip, hstep1⟩]
      rw [if_pos hms]
      rw [if_neg (by decide : ¬ (false : Bool) = true)]
      rw [hk]
      rw [if_neg (by simp [hfe])]

/-- C3 witness: Guard C on a concrete multi-cyclist person with a hospital
narrative mentioning an e-bike and no collision-partner value. -/
theorem step2_hospital_spec_witness :
    (hospCykelPerson.eventS = some "elcykel") ∧
    (pyStrip "elcykel".data ≠ []) ∧
    ((step1Phase hospCykelPerson false [some "Cykel"] CState.init).result =
      none) ∧
    (findKeywordMatches "elcykel".data MICROMOBILITY_KEYWORDS ≠ []) ∧
    ((hospCykelPerson.konfliktUg = none ∨
        ∃ k, hospCykelPerson.konfliktUg = some k ∧ pyStrip k.data = []) →
      ∀ c, resolvePriority (findKeywordMatches "elcykel".data
          MICROMOBILITY_KEYWORDS) = some c →
        (classifyPerson hospCykelPerson false [some "Cykel"]).result = some c ∧
        (classifyPerson hospCykelPerson false [some "Cykel"]).confidence =
          "medium" ∧
        (classifyPerson hospCykelPerson false [some "Cykel"]).step =
          "Step 2 (S, Guard C: per-person assumption)") :=
  ⟨rfl, by decide, by decide, by decide,
   (step2_hospital_spec hospCykelPerson [some "Cykel"] "elcykel" rfl
      (by decide) (by decide) (by decide)).1⟩

end Strada
